import Mathlib

/-!
# DVD rental backend (`backend/main.go`): a shallow embedding

The backend is a set of HTTP handlers, each of which runs one or two SQL
statements against a PostgreSQL database and serialises the outcome.

* The database is a `Store`: one list of rows per table, in scan order.
* Every SQL statement of the source is a function on `Store`, written from the
  statement text that is quoted in its doc comment.
* Every handler is a function from its inputs and the store to an `Outcome`:
  the HTTP response, the store afterwards and the statements it sent.
* Store-access failures are inputs: a `Faults` value says which round trip to the
  database reports an error, and with which message.
-/

namespace DvdRental

/-! ## Tables -/

/-- A row of `rental`. `return_date = none` is SQL `NULL`: the rental is open. -/
structure Rental where
  rental_id : Int
  rental_date : Int
  inventory_id : Int
  customer_id : Int
  staff_id : Int
  return_date : Option Int
deriving DecidableEq

/-- A row of `inventory`. -/
structure Inventory where
  inventory_id : Int
  film_id : Int
deriving DecidableEq

/-- A row of `film`. -/
structure Film where
  film_id : Int
  title : String
deriving DecidableEq

/-- A row of `customer`. -/
structure Customer where
  customer_id : Int
  first_name : String
  last_name : String
  email : Option String
deriving DecidableEq

/-- A row of `staff`. -/
structure Staff where
  staff_id : Int
  first_name : String
  last_name : String
  email : Option String
deriving DecidableEq

/-- A row of `payment`; `amount` is an SQL `numeric`, an exact decimal. -/
structure Payment where
  staff_id : Int
  amount : ℚ
deriving DecidableEq

/-- The database: the rows of each table in scan order, and the sequence that
feeds `rental.rental_id` on `INSERT`. -/
structure Store where
  rental : List Rental
  inventory : List Inventory
  film : List Film
  customer : List Customer
  staff : List Staff
  payment : List Payment
  rental_id_seq : Int
deriving DecidableEq

/-- A rental is open when its return timestamp is `NULL`. -/
def Rental.isOpen (r : Rental) : Bool := r.return_date.isNone

/-! ## Responses -/

/-- Result row of `ReportCustomerRentals`. -/
structure CustomerRentalRow where
  RentalID : Int
  RentalDate : Int
  ReturnDate : Option Int
  Title : String
  InventoryID : Int
deriving DecidableEq

/-- Result row of `ReportNotReturned`. -/
structure NotReturnedRow where
  RentalID : Int
  Customer : String
  Title : String
  RentalDate : Int
  InventoryID : Int
deriving DecidableEq

/-- Result row of `ReportTopRented`. -/
structure TopRentedRow where
  Title : String
  Total : Int
deriving DecidableEq

/-- Result row of `ReportRevenueByStaff`; `Revenue` is a Go `float64`, held here
as the rational number the float stands for. -/
structure RevenueRow where
  StaffID : Int
  Staff : String
  Revenue : ℚ
deriving DecidableEq

/-- The values the handlers pass to `respondJSON`. -/
inductive Body where
  | apiError (Error : String)
  | loginResponse (Token : String) (Role : String) (Id : Int) (Name : String)
  | rentResponse (RentalID : Int)
  | returned (id : Int)
  | canceled (id : Int)
  | inventory_ids (ids : List Int)
  | customerRentals (rows : List CustomerRentalRow)
  | notReturned (rows : List NotReturnedRow)
  | topRented (rows : List TopRentedRow)
  | revenueByStaff (rows : List RevenueRow)
  | health
deriving DecidableEq

/-- An HTTP response: status code and JSON payload. -/
structure Response where
  code : Nat
  body : Body
deriving DecidableEq

/-- The source's `respondJSON(w, code, v)`. -/
def respondJSON (code : Nat) (v : Body) : Response := ⟨code, v⟩

/-- The SQL statements of the source, with their arguments. -/
inductive Stmt where
  | selectStaffByEmail (email : String)
  | selectCustomerByEmail (email : String)
  | countOpenForInventory (inventoryID : Int)
  | insertRental (inventoryID : Int) (customerID : Int) (staffID : Int)
  | updateReturnDate (id : Int)
  | countOpenForRental (id : Int)
  | deleteRental (id : Int)
  | selectAvailable (filmID : Int)
  | selectCustomerRentals (id : Int)
  | selectNotReturned
  | selectTopRented (n : Int)
  | selectRevenueByStaff
deriving DecidableEq

/-- What one handler call produces: the response, the store afterwards, and the
statements sent to the database, in order. -/
structure Outcome where
  resp : Response
  store : Store
  issued : List Stmt

/-- Store-access failures of one request. `call k = some msg`: the `k`-th
`Query`/`QueryRow`/`Exec` of the request (counted from 0) returns the error
`msg` and has no effect. `next = some k`: while a result set is being read,
`rows.Next()` returns `false` because of an error once `k` rows were
delivered. -/
structure Faults where
  call : Nat → Option String
  next : Option Nat

/-- No store-access failure at all. -/
def noFaults : Faults := ⟨fun _ => Option.none, Option.none⟩

/-! ## `strconv.Atoi` with the error dropped (`id, _ := strconv.Atoi(s)`) -/

/-- The digit loop of Go's `strconv.ParseUint(s, 10, 64)`: `none` is a syntax
error, `some (n, true)` a range error (reported as soon as the value leaves
64 bits, before the remaining characters are looked at). -/
def parseUintLoop : List Char → Nat → Option (Nat × Bool)
  | [], n => some (n, false)
  | c :: cs, n =>
    if c.toNat < 48 ∨ 57 < c.toNat then Option.none
    else if n ≥ (2 ^ 64 - 1) / 10 + 1 then some (2 ^ 64 - 1, true)
    else if n * 10 + (c.toNat - 48) > 2 ^ 64 - 1 then some (2 ^ 64 - 1, true)
    else parseUintLoop cs (n * 10 + (c.toNat - 48))

/-- Go's `strconv.Atoi` on a 64-bit platform, keeping only the integer: 0 on
a syntax error, the nearest `int64` bound on a range error. -/
def Atoi (s : String) : Int :=
  match s.data with
  | [] => 0
  | c :: cs =>
    let neg : Bool := c = '-'
    let ds := if c = '-' ∨ c = '+' then cs else c :: cs
    if ds = [] then 0
    else
      match parseUintLoop ds 0 with
      | Option.none => 0
      | some (un, _) =>
        if ¬ neg ∧ un ≥ 2 ^ 63 then 2 ^ 63 - 1
        else if neg ∧ un > 2 ^ 63 then -(2 ^ 63)
        else if neg then -(un : Int) else (un : Int)

/-! ## The rental workflow -/

/-- Request body of `Rent`. -/
structure rentRequest where
  CustomerID : Int
  InventoryID : Int
  StaffID : Int
deriving DecidableEq

/-- The statement `SELECT COUNT(*) FROM rental WHERE inventory_id=$1 AND
return_date IS NULL`. -/
def Store.countOpenForInventory (s : Store) (inventoryID : Int) : Nat :=
  (s.rental.filter (fun r => decide (r.inventory_id = inventoryID) && r.isOpen)).length

/-- The statement `INSERT INTO rental (rental_date, inventory_id, customer_id,
staff_id) VALUES (NOW(), $1, $2, $3) RETURNING rental_id`: the identifier comes
from the sequence, `return_date` is left `NULL`. -/
def Store.insertRental (s : Store) (now inventoryID customerID staffID : Int) :
    Int × Store :=
  (s.rental_id_seq,
   { s with
     rental := s.rental ++ [⟨s.rental_id_seq, now, inventoryID, customerID, staffID, Option.none⟩]
     rental_id_seq := s.rental_id_seq + 1 })

/-- The statement `UPDATE rental SET return_date=NOW() WHERE rental_id=$1 AND
return_date IS NULL`: the number of rows affected and the store afterwards. -/
def Store.updateReturnDate (s : Store) (now id : Int) : Nat × Store :=
  ((s.rental.filter (fun r => decide (r.rental_id = id) && r.isOpen)).length,
   { s with
     rental := s.rental.map (fun r =>
       if decide (r.rental_id = id) && r.isOpen then { r with return_date := some now } else r) })

/-- The statement `SELECT COUNT(*) FROM rental WHERE rental_id=$1 AND
return_date IS NULL`. -/
def Store.countOpenForRental (s : Store) (id : Int) : Nat :=
  (s.rental.filter (fun r => decide (r.rental_id = id) && r.isOpen)).length

/-- The statement `DELETE FROM rental WHERE rental_id=$1`. -/
def Store.deleteRental (s : Store) (id : Int) : Store :=
  { s with rental := s.rental.filter (fun r => !decide (r.rental_id = id)) }

/-- Handler `App.Rent`. `body` is the result of decoding the request body,
`now` the database clock (`NOW()`). -/
def Rent (f : Faults) (now : Int) (s : Store) (body : Except String rentRequest) : Outcome :=
  match body with
  | .error e => ⟨respondJSON 400 (.apiError e), s, []⟩
  | .ok req =>
    match f.call 0 with
    | some e => ⟨respondJSON 500 (.apiError e), s, [.countOpenForInventory req.InventoryID]⟩
    | Option.none =>
      let openCount := s.countOpenForInventory req.InventoryID
      if openCount > 0 then
        ⟨respondJSON 409 (.apiError "inventory already rented"), s,
          [.countOpenForInventory req.InventoryID]⟩
      else
        match f.call 1 with
        | some e =>
          ⟨respondJSON 500 (.apiError e), s,
            [.countOpenForInventory req.InventoryID,
             .insertRental req.InventoryID req.CustomerID req.StaffID]⟩
        | Option.none =>
          let ins := s.insertRental now req.InventoryID req.CustomerID req.StaffID
          ⟨respondJSON 201 (.rentResponse ins.1), ins.2,
            [.countOpenForInventory req.InventoryID,
             .insertRental req.InventoryID req.CustomerID req.StaffID]⟩

/-- Handler `App.Return`. `idStr` is the path variable `rental_id`. -/
def Return (f : Faults) (now : Int) (s : Store) (idStr : String) : Outcome :=
  let id := Atoi idStr
  match f.call 0 with
  | some e => ⟨respondJSON 500 (.apiError e), s, [.updateReturnDate id]⟩
  | Option.none =>
    let res := s.updateReturnDate now id
    if res.1 = 0 then
      ⟨respondJSON 404 (.apiError "rental not found or already returned"), res.2,
        [.updateReturnDate id]⟩
    else ⟨respondJSON 200 (.returned id), res.2, [.updateReturnDate id]⟩

/-- Handler `App.Cancel`. `idStr` is the path variable `rental_id`. -/
def Cancel (f : Faults) (s : Store) (idStr : String) : Outcome :=
  let id := Atoi idStr
  match f.call 0 with
  | some e => ⟨respondJSON 500 (.apiError e), s, [.countOpenForRental id]⟩
  | Option.none =>
    let exists_ := s.countOpenForRental id
    if exists_ = 0 then
      ⟨respondJSON 409 (.apiError "cannot cancel: rental already returned or not found"), s,
        [.countOpenForRental id]⟩
    else
      match f.call 1 with
      | some e =>
        ⟨respondJSON 500 (.apiError e), s, [.countOpenForRental id, .deleteRental id]⟩
      | Option.none =>
        ⟨respondJSON 200 (.canceled id), s.deleteRental id,
          [.countOpenForRental id, .deleteRental id]⟩

/-! ### Rent, one store round trip at a time -/

/-- Where a `Rent` request stands between its round trips to the store. -/
inductive RentTask where
  | start (req : rentRequest)
  | counted (req : rentRequest)
  | done (resp : Response)
deriving DecidableEq

/-- The next round trip of a `Rent` request whose store calls all answer: the
count query with the test `openCount > 0`, then the `INSERT`. -/
def rentStep (now : Int) (s : Store) : RentTask → RentTask × Store
  | .start req =>
    if s.countOpenForInventory req.InventoryID > 0 then
      (.done (respondJSON 409 (.apiError "inventory already rented")), s)
    else (.counted req, s)
  | .counted req =>
    let ins := s.insertRental now req.InventoryID req.CustomerID req.StaffID
    (.done (respondJSON 201 (.rentResponse ins.1)), ins.2)
  | .done resp => (.done resp, s)

/-- Requests served concurrently: each entry of the schedule names the request
that makes its next round trip. -/
def runSchedule (now : Int) : List Nat → Store × List RentTask → Store × List RentTask
  | [], st => st
  | i :: rest, (s, tasks) =>
    match tasks[i]? with
    | Option.none => runSchedule now rest (s, tasks)
    | some task =>
      runSchedule now rest ((rentStep now s task).2, tasks.set i (rentStep now s task).1)

/-- The data-model invariant: for every inventory identifier, the number of
rentals with a null return timestamp is 0 or 1. -/
def AtMostOneOpen (s : Store) : Prop :=
  ∀ inventoryID : Int, s.countOpenForInventory inventoryID ≤ 1

/-- The states the rental workflow can reach from a store without rentals, one
handler call at a time. -/
inductive Reachable : Store → Prop where
  | init (s : Store) (h : s.rental = []) : Reachable s
  | rent (f : Faults) (now : Int) (s : Store) (body : Except String rentRequest) :
      Reachable s → Reachable (Rent f now s body).store
  | ret (f : Faults) (now : Int) (s : Store) (idStr : String) :
      Reachable s → Reachable (Return f now s idStr).store
  | cancel (f : Faults) (s : Store) (idStr : String) :
      Reachable s → Reachable (Cancel f s idStr).store

/-! ## Login -/

/-- Request body of `Login`. -/
structure loginRequest where
  Email : String
  Role : String
deriving DecidableEq

/-- SQL `lower` on ASCII letters. -/
def lower (s : String) : String := String.mk (s.data.map Char.toLower)

/-- SQL `lower(email)=lower($1)`; a `NULL` email matches nothing. -/
def emailMatches (email : Option String) (arg : String) : Bool :=
  match email with
  | some e => decide (lower e = lower arg)
  | Option.none => false

/-- The statement `SELECT staff_id, first_name||' '||last_name FROM staff WHERE
lower(email)=lower($1)` as `QueryRow` reads it: the first row, if any. -/
def Store.selectStaffByEmail (s : Store) (email : String) : Option (Int × String) :=
  (s.staff.find? (fun x => emailMatches x.email email)).map
    (fun x => (x.staff_id, x.first_name ++ " " ++ x.last_name))

/-- The statement `SELECT customer_id, first_name||' '||last_name FROM customer
WHERE lower(email)=lower($1)` as `QueryRow` reads it: the first row, if any. -/
def Store.selectCustomerByEmail (s : Store) (email : String) : Option (Int × String) :=
  (s.customer.find? (fun x => emailMatches x.email email)).map
    (fun x => (x.customer_id, x.first_name ++ " " ++ x.last_name))

/-- What `QueryRow(...).Scan(...)` hands to `Login`: an error when the round
trip fails and also (`sql.ErrNoRows`) when no row matches. -/
def scanRow (fault : Option String) (row : Option (Int × String)) : Except String (Int × String) :=
  match fault with
  | some e => .error e
  | Option.none =>
    match row with
    | some x => .ok x
    | Option.none => .error "sql: no rows in result set"

/-- Handler `App.Login`. `body` is the result of decoding the request body. -/
def Login (f : Faults) (s : Store) (body : Except String loginRequest) : Outcome :=
  match body with
  | .error e => ⟨respondJSON 400 (.apiError e), s, []⟩
  | .ok req =>
    if req.Role = "staff" then
      match scanRow (f.call 0) (s.selectStaffByEmail req.Email) with
      | .error _ =>
        ⟨respondJSON 401 (.apiError "staff not found"), s, [.selectStaffByEmail req.Email]⟩
      | .ok (id, name) =>
        ⟨respondJSON 200 (.loginResponse ("staff-" ++ toString id) "staff" id name), s,
          [.selectStaffByEmail req.Email]⟩
    else if req.Role = "customer" then
      match scanRow (f.call 0) (s.selectCustomerByEmail req.Email) with
      | .error _ =>
        ⟨respondJSON 401 (.apiError "customer not found"), s,
          [.selectCustomerByEmail req.Email]⟩
      | .ok (id, name) =>
        ⟨respondJSON 200 (.loginResponse ("customer-" ++ toString id) "customer" id name), s,
          [.selectCustomerByEmail req.Email]⟩
    else
      ⟨respondJSON 400 (.apiError "role must be 'staff' or 'customer'"), s, []⟩

/-! ## Reading a result set -/

/-- The loop `for rows.Next() { rows.Scan(...); out = append(out, x) }`: every
row of the result set, or only the rows delivered before `rows.Next()` stopped
on an error (`rows.Err()` is never looked at). -/
def readRows {α : Type} (f : Faults) (rows : List α) : List α :=
  match f.next with
  | Option.none => rows
  | some k => rows.take k

/-! ## Available inventory -/

/-- The rows of `inventory i LEFT JOIN rental r ON i.inventory_id =
r.inventory_id AND r.return_date IS NULL`: every matching pair, and an
inventory row without a match once, padded with `NULL`s. -/
def Store.inventoryLeftJoinOpenRental (s : Store) : List (Inventory × Option Rental) :=
  s.inventory.flatMap (fun i =>
    match s.rental.filter (fun r => decide (i.inventory_id = r.inventory_id) && r.isOpen) with
    | [] => [(i, Option.none)]
    | m :: ms => (m :: ms).map (fun r => (i, some r)))

/-- The statement `SELECT i.inventory_id FROM inventory i LEFT JOIN rental r ON
i.inventory_id = r.inventory_id AND r.return_date IS NULL WHERE i.film_id=$1
AND r.rental_id IS NULL LIMIT 10`. -/
def Store.selectAvailable (s : Store) (filmID : Int) : List Int :=
  ((s.inventoryLeftJoinOpenRental.filter
      (fun ir => decide (ir.1.film_id = filmID) && (ir.2.map (fun r => r.rental_id)).isNone)).map
    (fun ir => ir.1.inventory_id)).take 10

/-- Handler `App.AvailableInventory`. `filmIDStr` is the query parameter
`film_id`, empty when absent. -/
def AvailableInventory (f : Faults) (s : Store) (filmIDStr : String) : Outcome :=
  if filmIDStr = "" then ⟨respondJSON 400 (.apiError "film_id required"), s, []⟩
  else
    let filmID := Atoi filmIDStr
    match f.call 0 with
    | some e => ⟨respondJSON 500 (.apiError e), s, [.selectAvailable filmID]⟩
    | Option.none =>
      ⟨respondJSON 200 (.inventory_ids (readRows f (s.selectAvailable filmID))), s,
        [.selectAvailable filmID]⟩

/-! ## Reports -/

/-- The rows of `rental r JOIN inventory i ON r.inventory_id=i.inventory_id JOIN
film f ON i.film_id=f.film_id`. -/
def Store.rentalJoinFilm (s : Store) : List (Rental × Inventory × Film) :=
  s.rental.flatMap (fun r =>
    (s.inventory.filter (fun i => decide (r.inventory_id = i.inventory_id))).flatMap (fun i =>
      (s.film.filter (fun fl => decide (i.film_id = fl.film_id))).map (fun fl => (r, i, fl))))

/-- `ORDER BY key ASC`. -/
def orderByAsc {α κ : Type} [LinearOrder κ] (key : α → κ) (l : List α) : List α :=
  l.insertionSort (fun a b => key a ≤ key b)

/-- `ORDER BY key DESC`. -/
def orderByDesc {α κ : Type} [LinearOrder κ] (key : α → κ) (l : List α) : List α :=
  l.insertionSort (fun a b => key b ≤ key a)

/-- The statement `SELECT r.rental_id, r.rental_date, r.return_date, f.title,
i.inventory_id FROM rental r JOIN inventory i ON ... JOIN film f ON ... WHERE
r.customer_id=$1 ORDER BY r.rental_date DESC`. -/
def Store.selectCustomerRentals (s : Store) (id : Int) : List CustomerRentalRow :=
  (orderByDesc (fun x : Rental × Inventory × Film => x.1.rental_date)
      (s.rentalJoinFilm.filter (fun x => decide (x.1.customer_id = id)))).map
    (fun x => ⟨x.1.rental_id, x.1.rental_date, x.1.return_date, x.2.2.title, x.2.1.inventory_id⟩)

/-- Handler `App.ReportCustomerRentals`. `idStr` is the path variable
`customer_id`. -/
def ReportCustomerRentals (f : Faults) (s : Store) (idStr : String) : Outcome :=
  let id := Atoi idStr
  match f.call 0 with
  | some e => ⟨respondJSON 500 (.apiError e), s, [.selectCustomerRentals id]⟩
  | Option.none =>
    ⟨respondJSON 200 (.customerRentals (readRows f (s.selectCustomerRentals id))), s,
      [.selectCustomerRentals id]⟩

/-- The rows of `rental r JOIN customer c ON r.customer_id=c.customer_id JOIN
inventory i ON r.inventory_id=i.inventory_id JOIN film f ON
i.film_id=f.film_id`. -/
def Store.rentalJoinCustomerFilm (s : Store) : List (Rental × Customer × Inventory × Film) :=
  s.rental.flatMap (fun r =>
    (s.customer.filter (fun c => decide (r.customer_id = c.customer_id))).flatMap (fun c =>
      (s.inventory.filter (fun i => decide (r.inventory_id = i.inventory_id))).flatMap (fun i =>
        (s.film.filter (fun fl => decide (i.film_id = fl.film_id))).map
          (fun fl => (r, c, i, fl)))))

/-- The projection `r.rental_id, c.first_name||' '||c.last_name AS customer,
f.title, r.rental_date, i.inventory_id`. -/
def notReturnedRow (x : Rental × Customer × Inventory × Film) : NotReturnedRow :=
  ⟨x.1.rental_id, x.2.1.first_name ++ " " ++ x.2.1.last_name, x.2.2.2.title, x.1.rental_date,
    x.2.2.1.inventory_id⟩

/-- The statement `SELECT r.rental_id, c.first_name||' '||c.last_name AS
customer, f.title, r.rental_date, i.inventory_id FROM rental r JOIN customer c
ON ... JOIN inventory i ON ... JOIN film f ON ... WHERE r.return_date IS NULL
ORDER BY r.rental_date ASC`. -/
def Store.selectNotReturned (s : Store) : List NotReturnedRow :=
  (orderByAsc (fun x : Rental × Customer × Inventory × Film => x.1.rental_date)
      (s.rentalJoinCustomerFilm.filter (fun x => x.1.isOpen))).map notReturnedRow

/-- Handler `App.ReportNotReturned`. -/
def ReportNotReturned (f : Faults) (s : Store) : Outcome :=
  match f.call 0 with
  | some e => ⟨respondJSON 500 (.apiError e), s, [.selectNotReturned]⟩
  | Option.none =>
    ⟨respondJSON 200 (.notReturned (readRows f s.selectNotReturned)), s, [.selectNotReturned]⟩

/-- `GROUP BY f.title` with `COUNT(*)`: one row per distinct title, with the
number of joined rows that carry it. -/
def groupCountByTitle (titles : List String) : List TopRentedRow :=
  titles.dedup.map (fun t => ⟨t, (titles.count t : Int)⟩)

/-- The statement `SELECT f.title, COUNT(*) as total FROM rental r JOIN
inventory i ON ... JOIN film f ON ... GROUP BY f.title ORDER BY total DESC
LIMIT $1`. PostgreSQL rejects a negative `LIMIT`. -/
def Store.selectTopRented (s : Store) (n : Int) : Except String (List TopRentedRow) :=
  if n < 0 then .error "pq: LIMIT must not be negative"
  else
    .ok ((orderByDesc (fun x : TopRentedRow => x.Total)
      (groupCountByTitle (s.rentalJoinFilm.map (fun x => x.2.2.title)))).take n.toNat)

/-- Handler `App.ReportTopRented`. `nStr` is the query parameter `limit`, empty
when absent. -/
def ReportTopRented (f : Faults) (s : Store) (nStr : String) : Outcome :=
  let nStr := if nStr = "" then "10" else nStr
  let n := Atoi nStr
  match f.call 0 with
  | some e => ⟨respondJSON 500 (.apiError e), s, [.selectTopRented n]⟩
  | Option.none =>
    match s.selectTopRented n with
    | .error e => ⟨respondJSON 500 (.apiError e), s, [.selectTopRented n]⟩
    | .ok rows => ⟨respondJSON 200 (.topRented (readRows f rows)), s, [.selectTopRented n]⟩

/-! ### Revenue by staff, and the `float64` it is scanned into -/

/-- Nearest integer to a rational, ties to the even one. -/
def roundHalfEven (x : ℚ) : ℤ :=
  if x - ⌊x⌋ < 1 / 2 then ⌊x⌋
  else if 1 / 2 < x - ⌊x⌋ then ⌊x⌋ + 1
  else if ⌊x⌋ % 2 = 0 then ⌊x⌋ else ⌊x⌋ + 1

/-- Exponent of the spacing of binary64 numbers at magnitude `x`: 52 binary
places below the leading bit, and never below the subnormal spacing
`2 ^ (-1074)`. -/
def ulpExp (x : ℚ) : ℤ := max (Int.log 2 x) (-1022) - 52

/-- Round-to-nearest-even of a magnitude `x ≥ 0` to 53 significant bits, the
exponent not yet bounded above. -/
def roundMagnitude (x : ℚ) : ℚ := roundHalfEven (x / 2 ^ ulpExp x) * 2 ^ ulpExp x

/-- Go's `strconv.ParseFloat(s, 64)` on the decimal text of `x`, which is how
`rows.Scan` fills a `float64` from an SQL `numeric`: the nearest binary64
number, ties to even; `none` is the range error of a result beyond the largest
finite binary64. -/
def ParseFloat64 (x : ℚ) : Option ℚ :=
  if 2 ^ 1024 ≤ roundMagnitude |x| then Option.none
  else if x < 0 then some (-roundMagnitude (-x)) else some (roundMagnitude x)

/-- `rows.Scan(..., &x.Revenue)` with the error dropped: on a range error the
field keeps the zero value it was declared with. -/
def scanFloat64 (x : ℚ) : ℚ := (ParseFloat64 x).getD 0

/-- The rows of `staff s LEFT JOIN payment p ON s.staff_id = p.staff_id`. -/
def Store.staffLeftJoinPayment (s : Store) : List (Staff × Option Payment) :=
  s.staff.flatMap (fun st =>
    match s.payment.filter (fun p => decide (st.staff_id = p.staff_id)) with
    | [] => [(st, Option.none)]
    | m :: ms => (m :: ms).map (fun p => (st, some p)))

/-- SQL `SUM`: `NULL` inputs are skipped, and the sum of no value is `NULL`. -/
def sqlSum (l : List (Option ℚ)) : Option ℚ :=
  match l.filterMap id with
  | [] => Option.none
  | a :: as => some (a :: as).sum

/-- The grouping columns `s.staff_id, staff` of a joined row. -/
def staffKey (x : Staff × Option Payment) : Int × String :=
  (x.1.staff_id, x.1.first_name ++ " " ++ x.1.last_name)

/-- The statement `SELECT s.staff_id, s.first_name||' '||s.last_name as staff,
COALESCE(SUM(p.amount),0) as revenue FROM staff s LEFT JOIN payment p ON
s.staff_id = p.staff_id GROUP BY s.staff_id, staff ORDER BY revenue DESC`, the
revenue still an exact `numeric`. -/
def Store.selectRevenueByStaff (s : Store) : List (Int × String × ℚ) :=
  orderByDesc (fun x : Int × String × ℚ => x.2.2)
    ((s.staffLeftJoinPayment.map staffKey).dedup.map (fun k =>
      (k.1, k.2,
        (sqlSum ((s.staffLeftJoinPayment.filter (fun x => decide (staffKey x = k))).map
          (fun x => x.2.map (fun p => p.amount)))).getD 0)))

/-- Handler `App.ReportRevenueByStaff`. -/
def ReportRevenueByStaff (f : Faults) (s : Store) : Outcome :=
  match f.call 0 with
  | some e => ⟨respondJSON 500 (.apiError e), s, [.selectRevenueByStaff]⟩
  | Option.none =>
    ⟨respondJSON 200 (.revenueByStaff
        ((readRows f s.selectRevenueByStaff).map (fun x => ⟨x.1, x.2.1, scanFloat64 x.2.2⟩))), s,
      [.selectRevenueByStaff]⟩

/-- Handler `App.Health`. -/
def Health (s : Store) : Outcome := ⟨respondJSON 200 .health, s, []⟩

/-! ## The schema, which the source relies on and does not contain -/

/-- Modelled from the spec: the schema of `rental` is not in the source; the
rental identifier generated on creation identifies the rental, so it is a key
of the table. -/
def UniqueRentalIDs (s : Store) : Prop := (s.rental.map (fun r => r.rental_id)).Nodup

instance (s : Store) : Decidable (UniqueRentalIDs s) := by
  unfold UniqueRentalIDs
  infer_instance

/-- Modelled from the spec: the schema of `inventory` is not in the source; the
data model identifies an inventory item by its inventory identifier, so the
identifier is a key of the table. -/
def UniqueInventoryIDs (s : Store) : Prop :=
  (s.inventory.map (fun i => i.inventory_id)).Nodup

/-- Modelled from the spec: the schema of `film` is not in the source; a film
is identified by its film identifier, so the identifier is a key of the
table. -/
def UniqueFilmIDs (s : Store) : Prop := (s.film.map (fun fl => fl.film_id)).Nodup

instance (s : Store) : Decidable (UniqueInventoryIDs s) := by
  unfold UniqueInventoryIDs
  infer_instance

instance (s : Store) : Decidable (UniqueFilmIDs s) := by
  unfold UniqueFilmIDs
  infer_instance

/-- Modelled from the spec: the schema of `customer` is not in the source; a
customer is identified by an integer identifier, so the identifier is a key of
the table. -/
def UniqueCustomerIDs (s : Store) : Prop :=
  (s.customer.map (fun c => c.customer_id)).Nodup

/-- Modelled from the spec: the foreign keys of the schema, which is not in the
source: the customer and inventory identifiers of a rental name a customer and
an inventory item of the store, and an inventory item is a copy of a film of
the store. -/
def ReferencesResolve (s : Store) : Prop :=
  (∀ r ∈ s.rental, (∃ c ∈ s.customer, c.customer_id = r.customer_id) ∧
    (∃ i ∈ s.inventory, i.inventory_id = r.inventory_id)) ∧
  (∀ i ∈ s.inventory, ∃ fl ∈ s.film, fl.film_id = i.film_id)

instance (s : Store) : Decidable (UniqueCustomerIDs s) := by
  unfold UniqueCustomerIDs
  infer_instance

instance (s : Store) : Decidable (ReferencesResolve s) := by
  unfold ReferencesResolve
  infer_instance

/-- Modelled from the spec: the schema of `staff` is not in the source; a staff
member is identified by an integer identifier, so the identifier is a key of
the table. -/
def UniqueStaffIDs (s : Store) : Prop := (s.staff.map (fun st => st.staff_id)).Nodup

instance (s : Store) : Decidable (UniqueStaffIDs s) := by
  unfold UniqueStaffIDs
  infer_instance

/-! ## The quantities the specification speaks of -/

/-- In the words of the specification: `r` is a rental of a film titled `t`,
that is, its inventory item is a copy of a film with that title. -/
def Store.isRentalOfTitle (s : Store) (t : String) (r : Rental) : Bool :=
  s.inventory.any (fun i => decide (i.inventory_id = r.inventory_id) &&
    s.film.any (fun fl => decide (fl.film_id = i.film_id) && decide (fl.title = t)))

/-- In the words of the specification: the number of rentals, open or returned,
of films with title `t`. -/
def Store.rentalsOfTitle (s : Store) (t : String) : Nat :=
  (s.rental.filter (s.isRentalOfTitle t)).length

/-- In the words of the specification: the distinct film titles that have at
least one rental. -/
def Store.rentedTitles (s : Store) : List String :=
  (s.film.map (fun fl => fl.title)).dedup.filter (fun t => decide (0 < s.rentalsOfTitle t))

/-- In the words of the specification: the exact sum of the amounts of the
payments attributed to a staff member, 0 when there are none. -/
def Store.paymentsTotal (s : Store) (staffID : Int) : ℚ :=
  ((s.payment.filter (fun p => decide (p.staff_id = staffID))).map (fun p => p.amount)).sum

/-! ## Parts of the statements, named for the proofs -/

/-- The titles joined to one rental by `JOIN inventory ... JOIN film ...`. -/
def Store.titlesOfRental (s : Store) (r : Rental) : List String :=
  (s.inventory.filter (fun i => decide (r.inventory_id = i.inventory_id))).flatMap (fun i =>
    (s.film.filter (fun fl => decide (i.film_id = fl.film_id))).map (fun fl => fl.title))

/-- The rows `ORDER BY total DESC` sorts before `LIMIT` cuts them. -/
def Store.topRentedSorted (s : Store) : List TopRentedRow :=
  orderByDesc (fun x : TopRentedRow => x.Total)
    (groupCountByTitle (s.rentalJoinFilm.map (fun x => x.2.2.title)))

/-- The joined rows that `JOIN customer ... JOIN inventory ... JOIN film ...`
attaches to one rental. -/
def Store.joinedToRental (s : Store) (r : Rental) :
    List (Rental × Customer × Inventory × Film) :=
  (s.customer.filter (fun c => decide (r.customer_id = c.customer_id))).flatMap (fun c =>
    (s.inventory.filter (fun i => decide (r.inventory_id = i.inventory_id))).flatMap (fun i =>
      (s.film.filter (fun fl => decide (i.film_id = fl.film_id))).map
        (fun fl => (r, c, i, fl))))

/-- The joined open rentals in the order `ORDER BY r.rental_date ASC` gives. -/
def Store.notReturnedSorted (s : Store) : List (Rental × Customer × Inventory × Film) :=
  orderByAsc (fun x : Rental × Customer × Inventory × Film => x.1.rental_date)
    (s.rentalJoinCustomerFilm.filter (fun x => x.1.isOpen))

/-- The joined rows `LEFT JOIN payment` attaches to one staff row. -/
def Store.joinedToStaff (s : Store) (st : Staff) : List (Staff × Option Payment) :=
  match s.payment.filter (fun p => decide (st.staff_id = p.staff_id)) with
  | [] => [(st, Option.none)]
  | m :: ms => (m :: ms).map (fun p => (st, some p))

/-- The grouped rows of the revenue statement before `ORDER BY`. -/
def Store.revenueGroups (s : Store) : List (Int × String × ℚ) :=
  (s.staffLeftJoinPayment.map staffKey).dedup.map (fun k =>
    (k.1, k.2,
      (sqlSum ((s.staffLeftJoinPayment.filter (fun x => decide (staffKey x = k))).map
        (fun x => x.2.map (fun p => p.amount)))).getD 0))

/-! ## Stores used to instantiate the theorems -/

/-- Store with one open and one returned rental, used to instantiate theorems. -/
def sampleStore : Store :=
  { rental := [⟨1, 100, 7, 3, 1, Option.none⟩, ⟨2, 90, 8, 3, 1, some 95⟩]
    inventory := [⟨7, 20⟩, ⟨8, 20⟩, ⟨9, 21⟩]
    film := [⟨20, "Alien"⟩, ⟨21, "Brazil"⟩]
    customer := [⟨3, "Ana", "Diaz", some "ana@example.org"⟩]
    staff := [⟨1, "Mike", "Hill", some "mike@example.org"⟩, ⟨2, "Jon", "Stone", Option.none⟩]
    payment := [⟨1, 5⟩, ⟨1, 3⟩]
    rental_id_seq := 3 }

/-- Store with films A (5 rentals), B (3 rentals) and C (3 rentals). -/
def abcStore : Store :=
  { rental := [⟨1, 10, 1, 1, 1, some 11⟩, ⟨2, 12, 1, 1, 1, some 13⟩, ⟨3, 14, 1, 1, 1, some 15⟩,
      ⟨4, 16, 1, 1, 1, some 17⟩, ⟨5, 18, 1, 1, 1, Option.none⟩,
      ⟨6, 10, 2, 1, 1, some 11⟩, ⟨7, 12, 2, 1, 1, some 13⟩, ⟨8, 14, 2, 1, 1, Option.none⟩,
      ⟨9, 10, 3, 1, 1, some 11⟩, ⟨10, 12, 3, 1, 1, some 13⟩, ⟨11, 14, 3, 1, 1, some 15⟩]
    inventory := [⟨1, 1⟩, ⟨2, 2⟩, ⟨3, 3⟩]
    film := [⟨1, "A"⟩, ⟨2, "B"⟩, ⟨3, "C"⟩]
    customer := [⟨1, "Ana", "Diaz", Option.none⟩]
    staff := [⟨1, "Mike", "Hill", Option.none⟩]
    payment := []
    rental_id_seq := 12 }

/-- Store with two open rentals, the later one stored first, and one returned
rental. -/
def twoOpenStore : Store :=
  { rental := [⟨1, 200, 7, 3, 1, Option.none⟩, ⟨2, 90, 8, 3, 1, some 95⟩,
      ⟨3, 100, 9, 4, 1, Option.none⟩]
    inventory := [⟨7, 20⟩, ⟨8, 20⟩, ⟨9, 21⟩]
    film := [⟨20, "Alien"⟩, ⟨21, "Brazil"⟩]
    customer := [⟨3, "Ana", "Diaz", Option.none⟩, ⟨4, "Bo", "Ek", Option.none⟩]
    staff := [⟨1, "Mike", "Hill", Option.none⟩]
    payment := []
    rental_id_seq := 4 }

/-- Store with one staff member and one payment of 2^53 + 1. -/
def bigPaymentStore : Store :=
  { rental := []
    inventory := []
    film := []
    customer := []
    staff := [⟨1, "Mike", "Hill", Option.none⟩]
    payment := [⟨1, 9007199254740993⟩]
    rental_id_seq := 1 }

/-- Store with a free inventory item 9 and two customers. -/
def freeItemStore : Store :=
  { rental := []
    inventory := [⟨9, 21⟩]
    film := [⟨21, "Brazil"⟩]
    customer := [⟨3, "Ana", "Diaz", Option.none⟩, ⟨4, "Bo", "Ek", Option.none⟩]
    staff := [⟨1, "Mike", "Hill", Option.none⟩]
    payment := []
    rental_id_seq := 1 }

/-! ## Lemmas on the rental statements -/

theorem length_filter_map_le {α : Type} (p : α → Bool) (g : α → α) (l : List α)
    (h : ∀ x, p (g x) = true → p x = true) :
    ((l.map g).filter p).length ≤ (l.filter p).length := by
  induction l with
  | nil => simp
  | cons a l ih =>
    by_cases hg : p (g a) = true
    · have hp := h a hg
      simp only [List.map_cons, List.filter_cons, hg, hp, if_true, List.length_cons]
      omega
    · by_cases hp : p a = true
      · simp only [List.map_cons, List.filter_cons, hg, hp, if_true, List.length_cons]
        simp only [Bool.false_eq_true, if_false]
        omega
      · simp only [List.map_cons, List.filter_cons, hg, hp]
        simpa using ih

theorem length_filter_filter_le {α : Type} (p q : α → Bool) (l : List α) :
    ((l.filter q).filter p).length ≤ (l.filter p).length := by
  induction l with
  | nil => simp
  | cons a l ih =>
    by_cases hq : q a = true <;> by_cases hp : p a = true
    · simp only [List.filter_cons, hq, hp, if_true, List.length_cons]
      omega
    · simp only [List.filter_cons, hq, hp, if_true]
      simpa using ih
    · simp only [List.filter_cons, hq, hp, if_true, List.length_cons]
      simp only [Bool.false_eq_true, if_false]
      omega
    · simp only [List.filter_cons, hq, hp]
      simpa using ih

theorem map_eq_self_of_forall {α : Type} (g : α → α) (l : List α)
    (h : ∀ x ∈ l, g x = x) : l.map g = l := by
  induction l with
  | nil => rfl
  | cons a l ih =>
    simp only [List.map_cons]
    rw [h a (List.mem_cons_self a l), ih (fun x hx => h x (List.mem_cons_of_mem a hx))]

theorem countOpenForInventory_pos_iff (s : Store) (inventoryID : Int) :
    0 < s.countOpenForInventory inventoryID ↔
      ∃ r ∈ s.rental, r.inventory_id = inventoryID ∧ r.return_date = Option.none := by
  unfold Store.countOpenForInventory
  rw [List.length_pos_iff_exists_mem]
  constructor
  · rintro ⟨r, hr⟩
    rw [List.mem_filter] at hr
    refine ⟨r, hr.1, ?_⟩
    simpa [Rental.isOpen, Option.isNone_iff_eq_none] using hr.2
  · rintro ⟨r, hr, h1, h2⟩
    refine ⟨r, ?_⟩
    rw [List.mem_filter]
    exact ⟨hr, by simp [Rental.isOpen, h1, h2]⟩

theorem countOpenForInventory_insertRental (s : Store) (now inv cust staff i : Int) :
    (s.insertRental now inv cust staff).2.countOpenForInventory i =
      s.countOpenForInventory i + (if inv = i then 1 else 0) := by
  simp only [Store.countOpenForInventory, Store.insertRental, List.filter_append,
    List.length_append, List.filter_cons, List.filter_nil]
  by_cases h : inv = i <;> simp [h, Rental.isOpen]

theorem countOpenForInventory_updateReturnDate_le (s : Store) (now id i : Int) :
    (s.updateReturnDate now id).2.countOpenForInventory i ≤ s.countOpenForInventory i := by
  simp only [Store.countOpenForInventory, Store.updateReturnDate]
  apply length_filter_map_le
  intro x hx
  by_cases hc : (decide (x.rental_id = id) && x.isOpen) = true
  · rw [if_pos hc] at hx
    simp [Rental.isOpen] at hx
  · rw [if_neg hc] at hx
    exact hx

theorem countOpenForInventory_deleteRental_le (s : Store) (id i : Int) :
    (s.deleteRental id).countOpenForInventory i ≤ s.countOpenForInventory i := by
  simp only [Store.countOpenForInventory, Store.deleteRental]
  exact length_filter_filter_le _ _ _

theorem updateReturnDate_eq_self (s : Store) (now id : Int)
    (h : (s.updateReturnDate now id).1 = 0) : (s.updateReturnDate now id).2 = s := by
  simp only [Store.updateReturnDate, List.length_eq_zero, List.filter_eq_nil_iff] at h
  simp only [Store.updateReturnDate]
  have : s.rental.map (fun r =>
      if (decide (r.rental_id = id) && r.isOpen) = true then
        { r with return_date := some now } else r) = s.rental :=
    map_eq_self_of_forall _ _ (fun x hx => by rw [if_neg (h x hx)])
  rw [this]

theorem Rent_store_atMostOneOpen (f : Faults) (now : Int) (s : Store)
    (body : Except String rentRequest) (h : AtMostOneOpen s) :
    AtMostOneOpen (Rent f now s body).store := by
  unfold Rent
  cases body with
  | error e => exact h
  | ok req =>
    simp only
    cases f.call 0 with
    | some e => exact h
    | none =>
      simp only
      by_cases hc : s.countOpenForInventory req.InventoryID > 0
      · rw [if_pos hc]; exact h
      · rw [if_neg hc]
        cases f.call 1 with
        | some e => exact h
        | none =>
          intro i
          simp only
          rw [countOpenForInventory_insertRental]
          by_cases hi : req.InventoryID = i
          · subst hi
            simp only [if_true]
            omega
          · simp only [hi, if_false]
            exact h i

theorem Return_store_atMostOneOpen (f : Faults) (now : Int) (s : Store) (idStr : String)
    (h : AtMostOneOpen s) : AtMostOneOpen (Return f now s idStr).store := by
  unfold Return
  simp only
  cases f.call 0 with
  | some e => exact h
  | none =>
    simp only
    intro i
    split <;>
      exact le_trans (countOpenForInventory_updateReturnDate_le s now _ i) (h i)

theorem Cancel_store_atMostOneOpen (f : Faults) (s : Store) (idStr : String)
    (h : AtMostOneOpen s) : AtMostOneOpen (Cancel f s idStr).store := by
  unfold Cancel
  simp only
  cases f.call 0 with
  | some e => exact h
  | none =>
    simp only
    split
    · exact h
    · cases f.call 1 with
      | some e => exact h
      | none =>
        intro i
        exact le_trans (countOpenForInventory_deleteRental_le s _ i) (h i)

theorem atMostOneOpen_of_rental_nil (s : Store) (h : s.rental = []) : AtMostOneOpen s := by
  intro i
  simp [Store.countOpenForInventory, h]

theorem Reachable.atMostOneOpen {s : Store} (h : Reachable s) : AtMostOneOpen s := by
  induction h with
  | init s h => exact atMostOneOpen_of_rental_nil s h
  | rent f now s body _ ih => exact Rent_store_atMostOneOpen f now s body ih
  | ret f now s idStr _ ih => exact Return_store_atMostOneOpen f now s idStr ih
  | cancel f s idStr _ ih => exact Cancel_store_atMostOneOpen f s idStr ih

theorem no_open_of_returned (s : Store) (r : Rental) (hu : UniqueRentalIDs s)
    (hr : r ∈ s.rental) (hret : r.return_date ≠ Option.none) :
    s.rental.filter (fun x => decide (x.rental_id = r.rental_id) && x.isOpen) = [] := by
  rw [List.filter_eq_nil_iff]
  intro x hx hc
  simp only [Bool.and_eq_true, decide_eq_true_eq] at hc
  have hxr : x = r := List.inj_on_of_nodup_map hu hx hr hc.1
  subst hxr
  apply hret
  simpa [Rental.isOpen, Option.isNone_iff_eq_none] using hc.2

theorem updateReturnDate_rental_ids (s : Store) (now id : Int) :
    (s.updateReturnDate now id).2.rental.map (fun r => r.rental_id) =
      s.rental.map (fun r => r.rental_id) := by
  simp only [Store.updateReturnDate, List.map_map]
  apply List.map_congr_left
  intro x _
  simp only [Function.comp]
  split <;> rfl

theorem Return_of_returned (f : Faults) (now : Int) (s : Store) (r : Rental) (idStr : String)
    (hu : UniqueRentalIDs s) (hr : r ∈ s.rental) (hret : r.return_date ≠ Option.none)
    (hid : Atoi idStr = r.rental_id) :
    (Return f now s idStr).store = s ∧
    (f.call 0 = Option.none → (Return f now s idStr).resp =
      respondJSON 404 (.apiError "rental not found or already returned")) := by
  have h0 : (s.updateReturnDate now r.rental_id).1 = 0 := by
    simp only [Store.updateReturnDate, no_open_of_returned s r hu hr hret, List.length_nil]
  have hs := updateReturnDate_eq_self s now r.rental_id h0
  unfold Return
  simp only [hid]
  cases f.call 0 with
  | some e => simp
  | none => simp only [h0, if_true, hs, true_and, implies_true]

theorem Cancel_of_returned (f : Faults) (s : Store) (r : Rental) (idStr : String)
    (hu : UniqueRentalIDs s) (hr : r ∈ s.rental) (hret : r.return_date ≠ Option.none)
    (hid : Atoi idStr = r.rental_id) :
    (Cancel f s idStr).store = s ∧
    (f.call 0 = Option.none → (Cancel f s idStr).resp =
      respondJSON 409 (.apiError "cannot cancel: rental already returned or not found")) := by
  have h0 : s.countOpenForRental r.rental_id = 0 := by
    simp only [Store.countOpenForRental, no_open_of_returned s r hu hr hret, List.length_nil]
  unfold Cancel
  simp only [hid]
  cases f.call 0 with
  | some e => simp
  | none => simp only [h0, if_true, true_and, implies_true]

theorem Return_of_open (f : Faults) (now : Int) (s : Store) (r : Rental) (idStr : String)
    (hr : r ∈ s.rental) (hopen : r.return_date = Option.none)
    (hid : Atoi idStr = r.rental_id) (h0 : f.call 0 = Option.none) :
    (Return f now s idStr).resp = respondJSON 200 (.returned r.rental_id) ∧
    (Return f now s idStr).store = (s.updateReturnDate now r.rental_id).2 ∧
    { r with return_date := some now } ∈ (Return f now s idStr).store.rental := by
  have hpos : (s.updateReturnDate now r.rental_id).1 ≠ 0 := by
    simp only [Store.updateReturnDate, ne_eq, List.length_eq_zero, List.filter_eq_nil_iff,
      not_forall]
    exact ⟨r, hr, by simp [Rental.isOpen, hopen]⟩
  have hmem : { r with return_date := some now } ∈ (s.updateReturnDate now r.rental_id).2.rental := by
    simp only [Store.updateReturnDate, List.mem_map]
    exact ⟨r, hr, by simp [Rental.isOpen, hopen]⟩
  unfold Return
  simp only [hid, h0, hpos, if_false]
  exact ⟨trivial, trivial, hmem⟩

/-! ## Lemmas on reading rows and on the available-inventory statement -/

theorem readRows_sublist {α : Type} (f : Faults) (rows : List α) :
    (readRows f rows).Sublist rows := by
  unfold readRows
  cases f.next with
  | none => exact List.Sublist.refl rows
  | some k => exact List.take_sublist k rows

theorem readRows_of_next_none {α : Type} (f : Faults) (rows : List α)
    (h : f.next = Option.none) : readRows f rows = rows := by
  simp [readRows, h]

theorem mem_inventoryLeftJoinOpenRental (s : Store) (ir : Inventory × Option Rental)
    (h : ir ∈ s.inventoryLeftJoinOpenRental) (hnull : ir.2 = Option.none) :
    ir.1 ∈ s.inventory ∧ s.countOpenForInventory ir.1.inventory_id = 0 := by
  unfold Store.inventoryLeftJoinOpenRental at h
  rw [List.mem_flatMap] at h
  obtain ⟨i, hi, hmem⟩ := h
  have hcount : s.countOpenForInventory i.inventory_id =
      (s.rental.filter (fun r => decide (i.inventory_id = r.inventory_id) && r.isOpen)).length := by
    unfold Store.countOpenForInventory
    congr 1
    apply List.filter_congr
    intro x _
    by_cases hx : i.inventory_id = x.inventory_id
    · simp [hx]
    · have hx2 : ¬ x.inventory_id = i.inventory_id := fun hh => hx hh.symm
      simp [hx, hx2]
  cases hf : s.rental.filter (fun r => decide (i.inventory_id = r.inventory_id) && r.isOpen) with
  | nil =>
    rw [hf] at hmem
    simp only [List.mem_singleton] at hmem
    subst hmem
    exact ⟨hi, by rw [hcount, hf]; rfl⟩
  | cons m ms =>
    rw [hf] at hmem
    simp only [List.mem_map] at hmem
    obtain ⟨r, _, hr⟩ := hmem
    subst hr
    simp at hnull

theorem mem_selectAvailable (s : Store) (filmID id : Int) (h : id ∈ s.selectAvailable filmID) :
    (∃ i ∈ s.inventory, i.inventory_id = id ∧ i.film_id = filmID) ∧
      s.countOpenForInventory id = 0 := by
  unfold Store.selectAvailable at h
  have h2 := List.mem_of_mem_take h
  rw [List.mem_map] at h2
  obtain ⟨ir, hir, hid⟩ := h2
  rw [List.mem_filter] at hir
  obtain ⟨hjoin, hcond⟩ := hir
  simp only [Bool.and_eq_true, decide_eq_true_eq, Option.isNone_iff_eq_none,
    Option.map_eq_none'] at hcond
  obtain ⟨hmem, hcount⟩ := mem_inventoryLeftJoinOpenRental s ir hjoin hcond.2
  subst hid
  exact ⟨⟨ir.1, hmem, rfl, hcond.1⟩, hcount⟩

theorem length_selectAvailable_le (s : Store) (filmID : Int) :
    (s.selectAvailable filmID).length ≤ 10 := by
  unfold Store.selectAvailable
  rw [List.length_take]
  exact Nat.min_le_left _ _

theorem Rent_code_ne_409 (f : Faults) (now : Int) (s : Store) (req : rentRequest)
    (h : s.countOpenForInventory req.InventoryID = 0) :
    (Rent f now s (.ok req)).resp.code ≠ 409 := by
  unfold Rent
  simp only [h, gt_iff_lt, lt_self_iff_false, if_false]
  cases f.call 0 with
  | some e => simp [respondJSON]
  | none =>
    cases f.call 1 with
    | some e => simp [respondJSON]
    | none => simp [respondJSON]

/-! ## Lemmas on the top-rented statement -/

theorem length_filter_key_le_one {α : Type} (key : α → Int) (l : List α) (k : Int)
    (h : (l.map key).Nodup) : (l.filter (fun x => decide (k = key x))).length ≤ 1 := by
  induction l with
  | nil => simp
  | cons a l ih =>
    rw [List.map_cons, List.nodup_cons] at h
    by_cases hk : k = key a
    · have hnil : l.filter (fun x => decide (k = key x)) = [] := by
        rw [List.filter_eq_nil_iff]
        intro x hx hc
        apply h.1
        rw [← hk, of_decide_eq_true hc]
        exact List.mem_map_of_mem key hx
      simp only [List.filter_cons, hk, decide_True, if_true, List.length_cons]
      rw [hk] at hnil
      rw [hnil]
      rfl
    · simp only [List.filter_cons, hk, decide_False, Bool.false_eq_true, if_false]
      exact ih h.2

theorem filter_key_eq_singleton {α : Type} (key : α → Int) (l : List α) (a : α)
    (h : (l.map key).Nodup) (ha : a ∈ l) :
    l.filter (fun x => decide (key a = key x)) = [a] := by
  have hle := length_filter_key_le_one key l (key a) h
  have hmem : a ∈ l.filter (fun x => decide (key a = key x)) := by
    rw [List.mem_filter]
    exact ⟨ha, by simp⟩
  cases hf : l.filter (fun x => decide (key a = key x)) with
  | nil => rw [hf] at hmem; cases hmem
  | cons b bs =>
    rw [hf] at hle hmem
    have hbs : bs = [] := by
      cases bs with
      | nil => rfl
      | cons c cs => simp at hle
    subst hbs
    rw [List.mem_singleton] at hmem
    rw [hmem]

theorem count_of_length_le_one {α : Type} [DecidableEq α] (l : List α) (a : α)
    (h : l.length ≤ 1) : l.count a = if a ∈ l then 1 else 0 := by
  cases l with
  | nil => simp
  | cons b bs =>
    cases bs with
    | nil =>
      by_cases hab : a = b
      · subst hab; simp
      · have hba : ¬ b = a := fun hh => hab hh.symm
        simp [List.count_cons, hab, hba]
    | cons c cs => simp at h

theorem count_flatMap_of_length_le_one {α β : Type} [DecidableEq β] (l : List α)
    (g : α → List β) (b : β) (h : ∀ a ∈ l, (g a).length ≤ 1) :
    (l.flatMap g).count b = (l.filter (fun a => decide (b ∈ g a))).length := by
  induction l with
  | nil => simp
  | cons a l ih =>
    have ih2 := ih (fun x hx => h x (List.mem_cons_of_mem a hx))
    rw [List.flatMap_cons, List.count_append, ih2,
      count_of_length_le_one (g a) b (h a (List.mem_cons_self a l))]
    by_cases hb : b ∈ g a
    · simp [List.filter_cons, hb]; omega
    · simp [List.filter_cons, hb]

theorem rentalJoinFilm_titles (s : Store) :
    s.rentalJoinFilm.map (fun x => x.2.2.title) = s.rental.flatMap s.titlesOfRental := by
  unfold Store.rentalJoinFilm Store.titlesOfRental
  rw [List.map_flatMap]
  congr 1
  funext r
  rw [List.map_flatMap]
  congr 1
  funext i
  rw [List.map_map]
  rfl

theorem mem_titlesOfRental (s : Store) (r : Rental) (t : String) :
    t ∈ s.titlesOfRental r ↔ s.isRentalOfTitle t r = true := by
  unfold Store.titlesOfRental Store.isRentalOfTitle
  simp only [List.mem_flatMap, List.mem_filter, List.mem_map, decide_eq_true_eq,
    List.any_eq_true, Bool.and_eq_true]
  constructor
  · rintro ⟨i, ⟨hi, hri⟩, fl, ⟨hfl, hifl⟩, ht⟩
    exact ⟨i, hi, hri.symm, fl, hfl, hifl.symm, ht⟩
  · rintro ⟨i, hi, hri, fl, hfl, hifl, ht⟩
    exact ⟨i, ⟨hi, hri.symm⟩, fl, ⟨hfl, hifl.symm⟩, ht⟩

theorem length_flatMap_le_one {α β : Type} (l : List α) (g : α → List β)
    (hl : l.length ≤ 1) (hg : ∀ a ∈ l, (g a).length ≤ 1) : (l.flatMap g).length ≤ 1 := by
  cases l with
  | nil => simp
  | cons a as =>
    cases as with
    | nil => simpa using hg a (List.mem_cons_self a [])
    | cons c cs => simp at hl

theorem length_titlesOfRental_le_one (s : Store) (r : Rental)
    (hi : UniqueInventoryIDs s) (hf : UniqueFilmIDs s) : (s.titlesOfRental r).length ≤ 1 := by
  unfold Store.titlesOfRental
  apply length_flatMap_le_one
  · exact length_filter_key_le_one (fun i : Inventory => i.inventory_id) s.inventory
      r.inventory_id hi
  · intro i _
    rw [List.length_map]
    exact length_filter_key_le_one (fun fl : Film => fl.film_id) s.film i.film_id hf

theorem count_joined_titles (s : Store) (t : String)
    (hi : UniqueInventoryIDs s) (hf : UniqueFilmIDs s) :
    (s.rentalJoinFilm.map (fun x => x.2.2.title)).count t = s.rentalsOfTitle t := by
  rw [rentalJoinFilm_titles,
    count_flatMap_of_length_le_one s.rental s.titlesOfRental t
      (fun r _ => length_titlesOfRental_le_one s r hi hf)]
  unfold Store.rentalsOfTitle
  congr 1
  apply List.filter_congr
  intro r _
  by_cases h : s.isRentalOfTitle t r = true
  · rw [h]; exact decide_eq_true ((mem_titlesOfRental s r t).2 h)
  · rw [Bool.not_eq_true] at h
    rw [h]
    apply decide_eq_false
    intro hm
    rw [mem_titlesOfRental, h] at hm
    cases hm

theorem mem_joined_titles_iff (s : Store) (t : String) :
    t ∈ s.rentalJoinFilm.map (fun x => x.2.2.title) ↔ t ∈ s.rentedTitles := by
  rw [rentalJoinFilm_titles]
  unfold Store.rentedTitles Store.rentalsOfTitle
  simp only [List.mem_flatMap, mem_titlesOfRental, List.mem_filter, List.mem_dedup,
    List.mem_map, decide_eq_true_eq, List.length_pos_iff_exists_mem]
  constructor
  · rintro ⟨r, hr, h⟩
    refine ⟨?_, r, hr, h⟩
    unfold Store.isRentalOfTitle at h
    simp only [List.any_eq_true, Bool.and_eq_true, decide_eq_true_eq] at h
    obtain ⟨i, _, _, fl, hfl, _, ht⟩ := h
    exact ⟨fl, hfl, ht⟩
  · rintro ⟨_, r, hr, h⟩
    exact ⟨r, hr, h⟩

theorem length_dedup_joined_titles (s : Store) :
    (s.rentalJoinFilm.map (fun x => x.2.2.title)).dedup.length = s.rentedTitles.length := by
  apply List.Perm.length_eq
  have hnd : s.rentedTitles.Nodup :=
    (List.nodup_dedup _).sublist (List.filter_sublist _)
  rw [List.perm_ext_iff_of_nodup (List.nodup_dedup _) hnd]
  intro t
  rw [List.mem_dedup, mem_joined_titles_iff]

/-! ## Lemmas on `ORDER BY` -/

theorem orderByDesc_pairwise {α κ : Type} [LinearOrder κ] (key : α → κ) (l : List α) :
    (orderByDesc key l).Pairwise (fun a b => key b ≤ key a) := by
  unfold orderByDesc
  haveI : IsTotal α (fun a b => key b ≤ key a) := ⟨fun a b => le_total (key b) (key a)⟩
  haveI : IsTrans α (fun a b => key b ≤ key a) := ⟨fun _ _ _ h1 h2 => le_trans h2 h1⟩
  exact List.sorted_insertionSort (fun a b => key b ≤ key a) l

theorem orderByDesc_perm {α κ : Type} [LinearOrder κ] (key : α → κ) (l : List α) :
    (orderByDesc key l).Perm l :=
  List.perm_insertionSort (fun a b => key b ≤ key a) l

theorem orderByAsc_pairwise {α κ : Type} [LinearOrder κ] (key : α → κ) (l : List α) :
    (orderByAsc key l).Pairwise (fun a b => key a ≤ key b) := by
  unfold orderByAsc
  haveI : IsTotal α (fun a b => key a ≤ key b) := ⟨fun a b => le_total (key a) (key b)⟩
  haveI : IsTrans α (fun a b => key a ≤ key b) := ⟨fun _ _ _ h1 h2 => le_trans h1 h2⟩
  exact List.sorted_insertionSort (fun a b => key a ≤ key b) l

theorem orderByAsc_perm {α κ : Type} [LinearOrder κ] (key : α → κ) (l : List α) :
    (orderByAsc key l).Perm l :=
  List.perm_insertionSort (fun a b => key a ≤ key b) l

theorem mem_groupCountByTitle (titles : List String) (row : TopRentedRow) :
    row ∈ groupCountByTitle titles ↔
      row.Title ∈ titles ∧ row.Total = (titles.count row.Title : Int) := by
  unfold groupCountByTitle
  simp only [List.mem_map, List.mem_dedup]
  constructor
  · rintro ⟨t, ht, rfl⟩
    exact ⟨ht, rfl⟩
  · rintro ⟨ht, hc⟩
    refine ⟨row.Title, ht, ?_⟩
    cases row
    simp only at hc
    simp [hc]

theorem groupCountByTitle_titles (titles : List String) :
    (groupCountByTitle titles).map (fun x => x.Title) = titles.dedup := by
  unfold groupCountByTitle
  rw [List.map_map]
  exact List.map_id _

theorem mem_topRentedSorted (s : Store) (row : TopRentedRow)
    (hi : UniqueInventoryIDs s) (hf : UniqueFilmIDs s) :
    row ∈ s.topRentedSorted ↔
      row.Title ∈ s.rentedTitles ∧ row.Total = (s.rentalsOfTitle row.Title : Int) := by
  unfold Store.topRentedSorted
  rw [(orderByDesc_perm _ _).mem_iff, mem_groupCountByTitle, mem_joined_titles_iff,
    count_joined_titles s row.Title hi hf]

theorem topRentedSorted_titles_nodup (s : Store) :
    (s.topRentedSorted.map (fun x => x.Title)).Nodup := by
  have hp : (s.topRentedSorted.map (fun x => x.Title)).Perm
      ((groupCountByTitle (s.rentalJoinFilm.map (fun x => x.2.2.title))).map
        (fun x => x.Title)) :=
    (orderByDesc_perm _ _).map _
  rw [hp.nodup_iff, groupCountByTitle_titles]
  exact List.nodup_dedup _

theorem length_topRentedSorted (s : Store) :
    s.topRentedSorted.length = s.rentedTitles.length := by
  unfold Store.topRentedSorted
  rw [(orderByDesc_perm _ _).length_eq, ← length_dedup_joined_titles]
  unfold groupCountByTitle
  rw [List.length_map]

theorem take_ge_drop_of_pairwise {α : Type} (R : α → α → Prop) (l : List α) (n : Nat)
    (h : l.Pairwise R) : ∀ a ∈ l.take n, ∀ b ∈ l.drop n, R a b := by
  rw [← List.take_append_drop n l, List.pairwise_append] at h
  exact h.2.2

theorem mem_take_or_mem_drop {α : Type} (l : List α) (n : Nat) (a : α) (h : a ∈ l) :
    a ∈ l.take n ∨ a ∈ l.drop n := by
  rw [← List.take_append_drop n l, List.mem_append] at h
  exact h

/-! ## Lemmas on the not-returned statement -/

theorem rentalJoinCustomerFilm_eq (s : Store) :
    s.rentalJoinCustomerFilm = s.rental.flatMap s.joinedToRental := rfl

theorem joinedToRental_singleton (s : Store) (r : Rental) (hr : r ∈ s.rental)
    (hc : UniqueCustomerIDs s) (hi : UniqueInventoryIDs s) (hf : UniqueFilmIDs s)
    (href : ReferencesResolve s) :
    ∃ c i fl, s.joinedToRental r = [(r, c, i, fl)] ∧ i.inventory_id = r.inventory_id := by
  obtain ⟨⟨c, hcm, hcid⟩, ⟨i, him, hiid⟩⟩ := href.1 r hr
  obtain ⟨fl, hfm, hfid⟩ := href.2 i him
  refine ⟨c, i, fl, ?_, hiid⟩
  have h1 := filter_key_eq_singleton (fun c : Customer => c.customer_id) s.customer c hc hcm
  have h2 := filter_key_eq_singleton (fun i : Inventory => i.inventory_id) s.inventory i hi him
  have h3 := filter_key_eq_singleton (fun fl : Film => fl.film_id) s.film fl hf hfm
  simp only [hcid, hiid, hfid] at h1 h2 h3
  unfold Store.joinedToRental
  rw [h1]
  simp only [List.flatMap_cons, List.flatMap_nil, List.append_nil]
  rw [h2]
  simp only [List.flatMap_cons, List.flatMap_nil, List.append_nil]
  rw [h3]
  rfl

theorem map_fst_flatMap_singleton {α β : Type} (l : List α) (g : α → List (α × β))
    (h : ∀ a ∈ l, ∃ b, g a = [(a, b)]) : (l.flatMap g).map Prod.fst = l := by
  induction l with
  | nil => rfl
  | cons a l ih =>
    obtain ⟨b, hb⟩ := h a (List.mem_cons_self a l)
    rw [List.flatMap_cons, List.map_append, hb,
      ih (fun x hx => h x (List.mem_cons_of_mem a hx))]
    rfl

theorem rentalJoinCustomerFilm_fst (s : Store)
    (hc : UniqueCustomerIDs s) (hi : UniqueInventoryIDs s) (hf : UniqueFilmIDs s)
    (href : ReferencesResolve s) :
    s.rentalJoinCustomerFilm.map Prod.fst = s.rental := by
  rw [rentalJoinCustomerFilm_eq]
  apply map_fst_flatMap_singleton
  intro r hr
  obtain ⟨c, i, fl, h, _⟩ := joinedToRental_singleton s r hr hc hi hf href
  exact ⟨(c, i, fl), h⟩

theorem mem_rentalJoinCustomerFilm (s : Store) (x : Rental × Customer × Inventory × Film)
    (h : x ∈ s.rentalJoinCustomerFilm) :
    x.1 ∈ s.rental ∧ x.2.1 ∈ s.customer ∧ x.2.2.1 ∈ s.inventory ∧ x.2.2.2 ∈ s.film ∧
    x.2.1.customer_id = x.1.customer_id ∧ x.2.2.1.inventory_id = x.1.inventory_id ∧
    x.2.2.2.film_id = x.2.2.1.film_id := by
  unfold Store.rentalJoinCustomerFilm at h
  simp only [List.mem_flatMap, List.mem_filter, List.mem_map, decide_eq_true_eq] at h
  obtain ⟨r, hr, c, ⟨hc, hrc⟩, i, ⟨hi, hri⟩, fl, ⟨hfl, hifl⟩, hx⟩ := h
  subst hx
  exact ⟨hr, hc, hi, hfl, hrc.symm, hri.symm, hifl.symm⟩

theorem sublist_pair_of_pairwise {α : Type} (key : α → Int) (l : List α) (a b : α)
    (hp : l.Pairwise (fun x y => key x ≤ key y)) (ha : a ∈ l) (hb : b ∈ l)
    (hlt : key a < key b) : [a, b].Sublist l := by
  induction l with
  | nil => cases ha
  | cons c cs ih =>
    rw [List.pairwise_cons] at hp
    rcases List.mem_cons.1 ha with hac | hac
    · subst hac
      rcases List.mem_cons.1 hb with hbc | hbc
      · subst hbc
        exact absurd hlt (lt_irrefl _)
      · exact List.Sublist.cons₂ a (List.singleton_sublist.2 hbc)
    · rcases List.mem_cons.1 hb with hbc | hbc
      · subst hbc
        have := hp.1 a hac
        omega
      · exact List.Sublist.cons c (ih hp.2 hac hbc)

theorem selectNotReturned_eq (s : Store) :
    s.selectNotReturned = s.notReturnedSorted.map notReturnedRow := rfl

theorem notReturnedSorted_fst_perm (s : Store)
    (hc : UniqueCustomerIDs s) (hi : UniqueInventoryIDs s) (hf : UniqueFilmIDs s)
    (href : ReferencesResolve s) :
    (s.notReturnedSorted.map Prod.fst).Perm (s.rental.filter (fun r => r.isOpen)) := by
  have h1 : (s.notReturnedSorted.map Prod.fst).Perm
      ((s.rentalJoinCustomerFilm.filter (fun x => x.1.isOpen)).map Prod.fst) :=
    (orderByAsc_perm _ _).map _
  have h2 : (s.rentalJoinCustomerFilm.filter (fun x => x.1.isOpen)).map Prod.fst =
      s.rental.filter (fun r => r.isOpen) := by
    have h3 : (fun x : Rental × Customer × Inventory × Film => x.1.isOpen) =
        (fun r : Rental => r.isOpen) ∘ Prod.fst := rfl
    rw [h3, ← List.filter_map, rentalJoinCustomerFilm_fst s hc hi hf href]
  rw [← h2]
  exact h1

theorem mem_notReturnedSorted (s : Store) (x : Rental × Customer × Inventory × Film)
    (h : x ∈ s.notReturnedSorted) :
    x ∈ s.rentalJoinCustomerFilm ∧ x.1.return_date = Option.none := by
  unfold Store.notReturnedSorted at h
  rw [(orderByAsc_perm _ _).mem_iff, List.mem_filter] at h
  exact ⟨h.1, by simpa [Rental.isOpen, Option.isNone_iff_eq_none] using h.2⟩

/-! ## Lemmas on the conversion to `float64` -/

theorem roundHalfEven_le_floor_add_one (x : ℚ) : roundHalfEven x ≤ ⌊x⌋ + 1 := by
  unfold roundHalfEven
  split_ifs <;> omega

theorem floor_le_roundHalfEven (x : ℚ) : ⌊x⌋ ≤ roundHalfEven x := by
  unfold roundHalfEven
  split_ifs <;> omega

theorem roundHalfEven_mono {x y : ℚ} (h : x ≤ y) : roundHalfEven x ≤ roundHalfEven y := by
  have hxy : ⌊x⌋ ≤ ⌊y⌋ := Int.floor_mono h
  rcases hxy.lt_or_eq with hlt | heq
  · have h1 := roundHalfEven_le_floor_add_one x
    have h2 := floor_le_roundHalfEven y
    omega
  · unfold roundHalfEven
    rw [heq]
    split_ifs <;> first | omega | linarith

theorem roundHalfEven_intCast (n : ℤ) : roundHalfEven (n : ℚ) = n := by
  unfold roundHalfEven
  rw [Int.floor_intCast]
  simp

theorem two_zpow_pos (e : ℤ) : (0 : ℚ) < 2 ^ e := zpow_pos (by norm_num) e

theorem two_zpow_eq_intCast {k : ℤ} (hk : 0 ≤ k) : (2 : ℚ) ^ k = ((2 ^ k.toNat : ℤ) : ℚ) := by
  have h : k = (k.toNat : ℤ) := (Int.toNat_of_nonneg hk).symm
  conv_lhs => rw [h]
  rw [zpow_natCast]
  push_cast
  rfl

theorem roundHalfEven_div_two_zpow (e u : ℤ) (h : u ≤ e) :
    (roundHalfEven ((2 : ℚ) ^ e / 2 ^ u) : ℚ) = 2 ^ e / 2 ^ u := by
  rw [← zpow_sub₀ (by norm_num : (2 : ℚ) ≠ 0), two_zpow_eq_intCast (by omega : 0 ≤ e - u),
    roundHalfEven_intCast]

theorem roundMagnitude_nonneg {x : ℚ} (hx : 0 ≤ x) : 0 ≤ roundMagnitude x := by
  unfold roundMagnitude
  apply mul_nonneg _ (two_zpow_pos _).le
  have h := roundHalfEven_mono (div_nonneg hx (two_zpow_pos (ulpExp x)).le)
  have h0 : roundHalfEven 0 = 0 := by
    have := roundHalfEven_intCast 0
    simpa using this
  rw [h0] at h
  exact_mod_cast h

theorem roundMagnitude_le_two_zpow {x : ℚ} {e : ℤ} (hx : x ≤ 2 ^ e) (he : ulpExp x ≤ e) :
    roundMagnitude x ≤ 2 ^ e := by
  unfold roundMagnitude
  have h1 : x / 2 ^ ulpExp x ≤ 2 ^ e / 2 ^ ulpExp x :=
    div_le_div_of_nonneg_right hx (two_zpow_pos _).le
  have h2 : (roundHalfEven (x / 2 ^ ulpExp x) : ℚ) ≤ 2 ^ e / 2 ^ ulpExp x := by
    rw [← roundHalfEven_div_two_zpow e (ulpExp x) he]
    exact_mod_cast roundHalfEven_mono h1
  calc (roundHalfEven (x / 2 ^ ulpExp x) : ℚ) * 2 ^ ulpExp x
      ≤ 2 ^ e / 2 ^ ulpExp x * 2 ^ ulpExp x :=
        mul_le_mul_of_nonneg_right h2 (two_zpow_pos _).le
    _ = 2 ^ e := div_mul_cancel₀ _ (two_zpow_pos _).ne'

theorem two_zpow_le_roundMagnitude {y : ℚ} {e : ℤ} (hy : 2 ^ e ≤ y) (he : ulpExp y ≤ e) :
    2 ^ e ≤ roundMagnitude y := by
  unfold roundMagnitude
  have h1 : (2 : ℚ) ^ e / 2 ^ ulpExp y ≤ y / 2 ^ ulpExp y :=
    div_le_div_of_nonneg_right hy (two_zpow_pos _).le
  have h2 : (2 : ℚ) ^ e / 2 ^ ulpExp y ≤ (roundHalfEven (y / 2 ^ ulpExp y) : ℚ) := by
    rw [← roundHalfEven_div_two_zpow e (ulpExp y) he]
    exact_mod_cast roundHalfEven_mono h1
  calc (2 : ℚ) ^ e = 2 ^ e / 2 ^ ulpExp y * 2 ^ ulpExp y :=
        (div_mul_cancel₀ _ (two_zpow_pos _).ne').symm
    _ ≤ (roundHalfEven (y / 2 ^ ulpExp y) : ℚ) * 2 ^ ulpExp y :=
        mul_le_mul_of_nonneg_right h2 (two_zpow_pos _).le

theorem roundMagnitude_mono {x y : ℚ} (hx : 0 ≤ x) (h : x ≤ y) :
    roundMagnitude x ≤ roundMagnitude y := by
  rcases hx.lt_or_eq with hpos | hzero
  · have hlog : Int.log 2 x ≤ Int.log 2 y := Int.log_mono_right hpos h
    have hypos : 0 < y := lt_of_lt_of_le hpos h
    by_cases hu : ulpExp x = ulpExp y
    · unfold roundMagnitude
      rw [hu]
      apply mul_le_mul_of_nonneg_right _ (two_zpow_pos _).le
      exact_mod_cast roundHalfEven_mono (div_le_div_of_nonneg_right h (two_zpow_pos _).le)
    · have hlt : Int.log 2 x < Int.log 2 y := by
        unfold ulpExp at hu
        omega
      have hbig : -1022 < Int.log 2 y := by
        unfold ulpExp at hu
        omega
      have hxle : x ≤ 2 ^ Int.log 2 y := by
        have h1 : x < ((2 : ℕ) : ℚ) ^ (Int.log 2 x + 1) :=
          Int.lt_zpow_succ_log_self (by norm_num) x
        have h2 : ((2 : ℕ) : ℚ) ^ (Int.log 2 x + 1) ≤ ((2 : ℕ) : ℚ) ^ Int.log 2 y :=
          zpow_le_zpow_right₀ (by norm_num) (by omega)
        have h3 := le_of_lt (lt_of_lt_of_le h1 h2)
        simpa using h3
      have hyge : (2 : ℚ) ^ Int.log 2 y ≤ y := by
        have := Int.zpow_log_le_self (b := 2) (r := y) (by norm_num) hypos
        simpa using this
      have hex : ulpExp x ≤ Int.log 2 y := by
        unfold ulpExp
        omega
      have hey : ulpExp y ≤ Int.log 2 y := by
        unfold ulpExp
        omega
      exact le_trans (roundMagnitude_le_two_zpow hxle hex) (two_zpow_le_roundMagnitude hyge hey)
  · rw [← hzero]
    have h0 : roundMagnitude 0 = 0 := by
      unfold roundMagnitude
      simp [roundHalfEven]
    rw [h0]
    exact roundMagnitude_nonneg (hzero ▸ h)

theorem roundMagnitude_zero : roundMagnitude 0 = 0 := by
  unfold roundMagnitude
  simp [roundHalfEven]

theorem ParseFloat64_zero : ParseFloat64 0 = some 0 := by
  unfold ParseFloat64
  rw [abs_zero, roundMagnitude_zero]
  norm_num

theorem ParseFloat64_mono {x y a b : ℚ} (h : x ≤ y) (hx : ParseFloat64 x = some a)
    (hy : ParseFloat64 y = some b) : a ≤ b := by
  unfold ParseFloat64 at hx hy
  split_ifs at hx hy with h1 h2 h3 h4 h5 h6
  · simp only [Option.some.injEq] at hx hy
    rw [← hx, ← hy]
    exact neg_le_neg (roundMagnitude_mono (by linarith) (by linarith))
  · simp only [Option.some.injEq] at hx hy
    rw [← hx, ← hy]
    have := roundMagnitude_nonneg (x := -x) (by linarith)
    have := roundMagnitude_nonneg (x := y) (by linarith)
    linarith
  · linarith
  · simp only [Option.some.injEq] at hx hy
    rw [← hx, ← hy]
    exact roundMagnitude_mono (by linarith) h

theorem scanFloat64_zero : scanFloat64 0 = 0 := by
  simp [scanFloat64, ParseFloat64_zero]

theorem ulpExp_big : ulpExp 9007199254740993 = 1 := by
  unfold ulpExp
  have h : Int.log 2 (9007199254740993 : ℚ) = 53 := by
    have := Int.log_natCast (R := ℚ) 2 9007199254740993
    have h2 : Nat.log 2 9007199254740993 = 53 := by
      rw [Nat.log_eq_iff] <;> norm_num
    rw [h2] at this
    exact_mod_cast this
  rw [h]
  rfl

theorem roundMagnitude_big : roundMagnitude 9007199254740993 = 9007199254740992 := by
  have hfl : ⌊(9007199254740993 : ℚ) / 2⌋ = 4503599627370496 := by
    rw [Int.floor_eq_iff]
    norm_num
  unfold roundMagnitude
  rw [ulpExp_big]
  unfold roundHalfEven
  simp only [zpow_one, hfl]
  norm_num

theorem scanFloat64_big : scanFloat64 9007199254740993 = 9007199254740992 := by
  unfold scanFloat64 ParseFloat64
  rw [abs_of_nonneg (by norm_num : (0 : ℚ) ≤ 9007199254740993), roundMagnitude_big]
  norm_num

theorem Int_log_natCast_lt (n k : ℕ) (h : n < 2 ^ k) : Int.log 2 (n : ℚ) ≤ k := by
  rw [Int.log_natCast]
  by_cases hn : n = 0
  · subst hn
    simp
  · exact_mod_cast (Nat.log_lt_of_lt_pow hn h).le

theorem roundMagnitude_natCast (n : ℕ) (h : n < 2 ^ 53) : roundMagnitude (n : ℚ) = n := by
  have hu : ulpExp (n : ℚ) ≤ 0 := by
    have hlog : Int.log 2 (n : ℚ) ≤ 52 := by
      rw [Int.log_natCast]
      by_cases hn : n = 0
      · subst hn
        simp
      · have := Nat.log_lt_of_lt_pow hn h
        omega
    unfold ulpExp
    omega
  unfold roundMagnitude
  have hint : (n : ℚ) / 2 ^ ulpExp (n : ℚ) = (((n : ℤ) * 2 ^ (-ulpExp (n : ℚ)).toNat : ℤ) : ℚ) := by
    rw [div_eq_mul_inv, ← zpow_neg, two_zpow_eq_intCast (by omega : 0 ≤ -ulpExp (n : ℚ))]
    push_cast
    rfl
  rw [hint, roundHalfEven_intCast, ← hint]
  exact div_mul_cancel₀ _ (two_zpow_pos _).ne'

theorem scanFloat64_natCast (n : ℕ) (h : n < 2 ^ 53) : scanFloat64 (n : ℚ) = n := by
  unfold scanFloat64 ParseFloat64
  rw [abs_of_nonneg (Nat.cast_nonneg n), roundMagnitude_natCast n h]
  have h1 : ¬ ((2 : ℚ) ^ 1024 ≤ (n : ℚ)) := by
    rw [not_le]
    have h2 : (n : ℚ) < 2 ^ 53 := by exact_mod_cast h
    have h3 : (2 : ℚ) ^ 53 ≤ 2 ^ 1024 := by norm_num
    linarith
  have h4 : ¬ ((n : ℚ) < 0) := not_lt.mpr (Nat.cast_nonneg n)
  simp [h1, h4]

theorem roundHalfEven_abs_sub_le (x : ℚ) : |(roundHalfEven x : ℚ) - x| ≤ 1 / 2 := by
  have h1 := Int.floor_le x
  have h2 := Int.lt_floor_add_one x
  unfold roundHalfEven
  rw [abs_le]
  split_ifs <;> constructor <;> push_cast <;> linarith

theorem roundMagnitude_abs_sub_le (x : ℚ) : |roundMagnitude x - x| ≤ 2 ^ ulpExp x / 2 := by
  have hu := two_zpow_pos (ulpExp x)
  have h := roundHalfEven_abs_sub_le (x / 2 ^ ulpExp x)
  have he : roundMagnitude x - x =
      ((roundHalfEven (x / 2 ^ ulpExp x) : ℚ) - x / 2 ^ ulpExp x) * 2 ^ ulpExp x := by
    unfold roundMagnitude
    rw [sub_mul, div_mul_cancel₀ _ hu.ne']
  rw [he, abs_mul, abs_of_pos hu]
  calc |(roundHalfEven (x / 2 ^ ulpExp x) : ℚ) - x / 2 ^ ulpExp x| * 2 ^ ulpExp x
      ≤ 1 / 2 * 2 ^ ulpExp x := mul_le_mul_of_nonneg_right h hu.le
    _ = 2 ^ ulpExp x / 2 := by ring

theorem ParseFloat64_nearest {x y : ℚ} (h : ParseFloat64 x = some y) :
    (∃ m : ℤ, y = m * 2 ^ ulpExp |x|) ∧ |y - x| ≤ 2 ^ ulpExp |x| / 2 := by
  unfold ParseFloat64 at h
  split_ifs at h with h1 h2
  · simp only [Option.some.injEq] at h
    rw [abs_of_neg h2, ← h]
    refine ⟨⟨-roundHalfEven (-x / 2 ^ ulpExp (-x)), ?_⟩, ?_⟩
    · unfold roundMagnitude
      push_cast
      ring
    · have := roundMagnitude_abs_sub_le (-x)
      rw [show -roundMagnitude (-x) - x = -(roundMagnitude (-x) - -x) by ring, abs_neg]
      exact this
  · simp only [Option.some.injEq] at h
    rw [abs_of_nonneg (not_lt.mp h2), ← h]
    exact ⟨⟨roundHalfEven (x / 2 ^ ulpExp x), rfl⟩, roundMagnitude_abs_sub_le x⟩

/-! ## Lemmas on the revenue statement -/

theorem staffLeftJoinPayment_eq (s : Store) :
    s.staffLeftJoinPayment = s.staff.flatMap s.joinedToStaff := rfl

theorem filter_staff_id_comm (s : Store) (staffID : Int) :
    s.payment.filter (fun p => decide (staffID = p.staff_id)) =
      s.payment.filter (fun p => decide (p.staff_id = staffID)) := by
  apply List.filter_congr
  intro p _
  by_cases h : staffID = p.staff_id
  · simp [h]
  · have h2 : ¬ p.staff_id = staffID := fun hh => h hh.symm
    simp [h, h2]

theorem fst_of_mem_joinedToStaff (s : Store) (st : Staff) (x : Staff × Option Payment)
    (h : x ∈ s.joinedToStaff st) : x.1 = st := by
  unfold Store.joinedToStaff at h
  split at h
  · rw [List.mem_singleton] at h
    rw [h]
  · rw [List.mem_map] at h
    obtain ⟨p, _, hp⟩ := h
    rw [← hp]

theorem joinedToStaff_ne_nil (s : Store) (st : Staff) : s.joinedToStaff st ≠ [] := by
  unfold Store.joinedToStaff
  split <;> simp

theorem filterMap_id_map_some {α : Type} (l : List α) :
    (l.map (fun a => some a)).filterMap id = l := by
  induction l with
  | nil => rfl
  | cons a l ih => simp [List.filterMap_cons, ih]

theorem sqlSum_joinedToStaff (s : Store) (st : Staff) :
    (sqlSum ((s.joinedToStaff st).map (fun x => x.2.map (fun p => p.amount)))).getD 0 =
      s.paymentsTotal st.staff_id := by
  unfold Store.joinedToStaff Store.paymentsTotal
  rw [← filter_staff_id_comm]
  cases hf : s.payment.filter (fun p => decide (st.staff_id = p.staff_id)) with
  | nil => simp [sqlSum]
  | cons m ms =>
    have hmap : ((m :: ms).map (fun p => (st, some p))).map
        (fun x : Staff × Option Payment => x.2.map (fun p => p.amount)) =
        ((m :: ms).map (fun p => p.amount)).map (fun a => some a) := by
      rw [List.map_map, List.map_map]
      rfl
    simp only [hmap]
    unfold sqlSum
    rw [filterMap_id_map_some]
    rfl

theorem staff_eq_of_id_eq (s : Store) (hu : UniqueStaffIDs s) (a b : Staff)
    (ha : a ∈ s.staff) (hb : b ∈ s.staff) (h : a.staff_id = b.staff_id) : a = b :=
  List.inj_on_of_nodup_map hu ha hb h

theorem filter_flatMap_joinedToStaff (s : Store) (l : List Staff) (st : Staff)
    (hnd : l.Nodup) (hst : st ∈ l)
    (hkey : ∀ a ∈ l, a.staff_id = st.staff_id → a = st) :
    (l.flatMap s.joinedToStaff).filter (fun x => decide (staffKey x = staffKey (st, Option.none))) =
      s.joinedToStaff st := by
  induction l with
  | nil => cases hst
  | cons a l ih =>
    rw [List.nodup_cons] at hnd
    rw [List.flatMap_cons, List.filter_append]
    by_cases ha : a = st
    · subst ha
      have h1 : (s.joinedToStaff a).filter
          (fun x => decide (staffKey x = staffKey (a, Option.none))) = s.joinedToStaff a := by
        rw [List.filter_eq_self]
        intro x hx
        have := fst_of_mem_joinedToStaff s a x hx
        simp [staffKey, this]
      have h2 : (l.flatMap s.joinedToStaff).filter
          (fun x => decide (staffKey x = staffKey (a, Option.none))) = [] := by
        rw [List.filter_eq_nil_iff]
        intro x hx hc
        rw [List.mem_flatMap] at hx
        obtain ⟨b, hb, hxb⟩ := hx
        have hx1 := fst_of_mem_joinedToStaff s b x hxb
        simp only [staffKey, decide_eq_true_eq, Prod.mk.injEq] at hc
        have hba : b = a := hkey b (List.mem_cons_of_mem _ hb) (by rw [← hx1]; exact hc.1)
        exact hnd.1 (hba ▸ hb)
      rw [h1, h2, List.append_nil]
    · have h1 : (s.joinedToStaff a).filter
          (fun x => decide (staffKey x = staffKey (st, Option.none))) = [] := by
        rw [List.filter_eq_nil_iff]
        intro x hx hc
        have hx1 := fst_of_mem_joinedToStaff s a x hx
        simp only [staffKey, decide_eq_true_eq, Prod.mk.injEq] at hc
        exact ha (hkey a (List.mem_cons_self a l) (by rw [← hx1]; exact hc.1))
      have hst2 : st ∈ l := by
        rcases List.mem_cons.1 hst with h | h
        · exact absurd h.symm ha
        · exact h
      rw [h1, List.nil_append]
      exact ih hnd.2 hst2 (fun b hb => hkey b (List.mem_cons_of_mem _ hb))

theorem mem_staffKeys_iff (s : Store) (k : Int × String) :
    k ∈ (s.staffLeftJoinPayment.map staffKey).dedup ↔
      ∃ st ∈ s.staff, staffKey (st, Option.none) = k := by
  rw [List.mem_dedup, List.mem_map, staffLeftJoinPayment_eq]
  constructor
  · rintro ⟨x, hx, hk⟩
    rw [List.mem_flatMap] at hx
    obtain ⟨st, hst, hxs⟩ := hx
    refine ⟨st, hst, ?_⟩
    rw [← hk]
    have := fst_of_mem_joinedToStaff s st x hxs
    simp [staffKey, this]
  · rintro ⟨st, hst, hk⟩
    cases hj : s.joinedToStaff st with
    | nil => exact absurd hj (joinedToStaff_ne_nil s st)
    | cons x xs =>
      have hx : x ∈ s.joinedToStaff st := by rw [hj]; exact List.mem_cons_self x xs
      refine ⟨x, List.mem_flatMap.2 ⟨st, hst, hx⟩, ?_⟩
      rw [← hk]
      have := fst_of_mem_joinedToStaff s st x hx
      simp [staffKey, this]

theorem staffKeys_perm (s : Store) (hu : UniqueStaffIDs s) :
    (s.staffLeftJoinPayment.map staffKey).dedup.Perm
      (s.staff.map (fun st => staffKey (st, Option.none))) := by
  have hnd2 : (s.staff.map (fun st => staffKey (st, Option.none))).Nodup := by
    have h : ((s.staff.map (fun st => staffKey (st, Option.none))).map Prod.fst).Nodup := by
      rw [List.map_map]
      exact hu
    exact List.Nodup.of_map _ h
  rw [List.perm_ext_iff_of_nodup (List.nodup_dedup _) hnd2]
  intro k
  rw [mem_staffKeys_iff, List.mem_map]

theorem selectRevenueByStaff_eq (s : Store) :
    s.selectRevenueByStaff =
      orderByDesc (fun x : Int × String × ℚ => x.2.2) s.revenueGroups := rfl

theorem mem_selectRevenueByStaff (s : Store) (hu : UniqueStaffIDs s) (x : Int × String × ℚ)
    (h : x ∈ s.selectRevenueByStaff) :
    ∃ st ∈ s.staff, x = (st.staff_id, st.first_name ++ " " ++ st.last_name,
      s.paymentsTotal st.staff_id) := by
  rw [selectRevenueByStaff_eq, (orderByDesc_perm _ _).mem_iff] at h
  unfold Store.revenueGroups at h
  rw [List.mem_map] at h
  obtain ⟨k, hk, hx⟩ := h
  rw [mem_staffKeys_iff] at hk
  obtain ⟨st, hst, hkst⟩ := hk
  refine ⟨st, hst, ?_⟩
  have hnd : s.staff.Nodup := List.Nodup.of_map _ hu
  have hfil := filter_flatMap_joinedToStaff s s.staff st hnd hst
    (fun a ha hid => staff_eq_of_id_eq s hu a st ha hst hid)
  rw [← staffLeftJoinPayment_eq, hkst] at hfil
  rw [← hx, hfil, sqlSum_joinedToStaff, ← hkst]
  rfl

theorem selectRevenueByStaff_ids_perm (s : Store) (hu : UniqueStaffIDs s) :
    (s.selectRevenueByStaff.map Prod.fst).Perm (s.staff.map (fun st => st.staff_id)) := by
  have h1 : (s.selectRevenueByStaff.map Prod.fst).Perm (s.revenueGroups.map Prod.fst) :=
    (orderByDesc_perm _ _).map _
  have h2 : s.revenueGroups.map Prod.fst =
      (s.staffLeftJoinPayment.map staffKey).dedup.map Prod.fst := by
    unfold Store.revenueGroups
    rw [List.map_map]
    rfl
  have h3 : ((s.staffLeftJoinPayment.map staffKey).dedup.map Prod.fst).Perm
      ((s.staff.map (fun st => staffKey (st, Option.none))).map Prod.fst) :=
    (staffKeys_perm s hu).map _
  rw [List.map_map] at h3
  rw [h2] at h1
  exact h1.trans h3

/-! ## Lemmas on store-access failures -/

theorem Rent_of_call_failed (f : Faults) (now : Int) (s : Store)
    (body : Except String rentRequest) (k : Nat) (e : String) (hk : f.call k = some e)
    (hlen : k < (Rent f now s body).issued.length) :
    (Rent f now s body).resp = respondJSON 500 (.apiError e) ∧ (Rent f now s body).store = s := by
  cases body with
  | error m => simp [Rent] at hlen
  | ok req =>
    unfold Rent at hlen ⊢
    simp only at hlen ⊢
    cases h0 : f.call 0 with
    | some e0 =>
      simp only [h0, List.length_singleton, Nat.lt_one_iff] at hlen ⊢
      subst hlen
      rw [h0] at hk
      cases hk
      constructor <;> first | rfl | trivial
    | none =>
      simp only [h0] at hlen ⊢
      by_cases hc : s.countOpenForInventory req.InventoryID > 0
      · simp only [hc, if_true, List.length_singleton, Nat.lt_one_iff] at hlen
        subst hlen
        rw [h0] at hk
        cases hk
      · simp only [hc, if_false] at hlen ⊢
        cases h1 : f.call 1 with
        | some e1 =>
          simp only [h1, List.length_cons, List.length_nil] at hlen ⊢
          have hk01 : k = 0 ∨ k = 1 := by omega
          rcases hk01 with h | h
          · subst h
            rw [h0] at hk
            cases hk
          · subst h
            rw [h1] at hk
            cases hk
            constructor <;> first | rfl | trivial
        | none =>
          simp only [h1, List.length_cons, List.length_nil] at hlen
          have hk01 : k = 0 ∨ k = 1 := by omega
          rcases hk01 with h | h
          · subst h
            rw [h0] at hk
            cases hk
          · subst h
            rw [h1] at hk
            cases hk

theorem Return_of_call_failed (f : Faults) (now : Int) (s : Store) (idStr : String)
    (k : Nat) (e : String) (hk : f.call k = some e)
    (hlen : k < (Return f now s idStr).issued.length) :
    (Return f now s idStr).resp = respondJSON 500 (.apiError e) ∧
      (Return f now s idStr).store = s := by
  unfold Return at hlen ⊢
  simp only at hlen ⊢
  cases h0 : f.call 0 with
  | some e0 =>
    simp only [h0, List.length_singleton, Nat.lt_one_iff] at hlen ⊢
    subst hlen
    rw [h0] at hk
    cases hk
    constructor <;> first | rfl | trivial
  | none =>
    simp only [h0] at hlen
    have hk0 : k = 0 := by
      split at hlen <;> simpa using hlen
    subst hk0
    rw [h0] at hk
    cases hk

theorem Cancel_of_call_failed (f : Faults) (s : Store) (idStr : String)
    (k : Nat) (e : String) (hk : f.call k = some e)
    (hlen : k < (Cancel f s idStr).issued.length) :
    (Cancel f s idStr).resp = respondJSON 500 (.apiError e) ∧ (Cancel f s idStr).store = s := by
  unfold Cancel at hlen ⊢
  simp only at hlen ⊢
  cases h0 : f.call 0 with
  | some e0 =>
    simp only [h0, List.length_singleton, Nat.lt_one_iff] at hlen ⊢
    subst hlen
    rw [h0] at hk
    cases hk
    constructor <;> first | rfl | trivial
  | none =>
    simp only [h0] at hlen ⊢
    by_cases hc : s.countOpenForRental (Atoi idStr) = 0
    · simp only [hc, if_true, List.length_singleton, Nat.lt_one_iff] at hlen
      subst hlen
      rw [h0] at hk
      cases hk
    · simp only [hc, if_false] at hlen ⊢
      cases h1 : f.call 1 with
      | some e1 =>
        simp only [h1, List.length_cons, List.length_nil] at hlen ⊢
        have hk01 : k = 0 ∨ k = 1 := by omega
        rcases hk01 with h | h
        · subst h
          rw [h0] at hk
          cases hk
        · subst h
          rw [h1] at hk
          cases hk
          constructor <;> first | rfl | trivial
      | none =>
        simp only [h1, List.length_cons, List.length_nil] at hlen
        have hk01 : k = 0 ∨ k = 1 := by omega
        rcases hk01 with h | h
        · subst h
          rw [h0] at hk
          cases hk
        · subst h
          rw [h1] at hk
          cases hk

theorem AvailableInventory_of_call_failed (f : Faults) (s : Store) (filmIDStr : String)
    (k : Nat) (e : String) (hk : f.call k = some e)
    (hlen : k < (AvailableInventory f s filmIDStr).issued.length) :
    (AvailableInventory f s filmIDStr).resp = respondJSON 500 (.apiError e) ∧
      (AvailableInventory f s filmIDStr).store = s := by
  unfold AvailableInventory at hlen ⊢
  by_cases hne : filmIDStr = ""
  · simp [hne] at hlen
  · simp only [hne, if_false] at hlen ⊢
    cases h0 : f.call 0 with
    | some e0 =>
      simp only [h0, List.length_singleton, Nat.lt_one_iff] at hlen ⊢
      subst hlen
      rw [h0] at hk
      cases hk
      constructor <;> first | rfl | trivial
    | none =>
      simp only [h0, List.length_singleton, Nat.lt_one_iff] at hlen
      subst hlen
      rw [h0] at hk
      cases hk

theorem ReportCustomerRentals_of_call_failed (f : Faults) (s : Store) (idStr : String)
    (k : Nat) (e : String) (hk : f.call k = some e)
    (hlen : k < (ReportCustomerRentals f s idStr).issued.length) :
    (ReportCustomerRentals f s idStr).resp = respondJSON 500 (.apiError e) ∧
      (ReportCustomerRentals f s idStr).store = s := by
  unfold ReportCustomerRentals at hlen ⊢
  simp only at hlen ⊢
  cases h0 : f.call 0 with
  | some e0 =>
    simp only [h0, List.length_singleton, Nat.lt_one_iff] at hlen ⊢
    subst hlen
    rw [h0] at hk
    cases hk
    constructor <;> first | rfl | trivial
  | none =>
    simp only [h0, List.length_singleton, Nat.lt_one_iff] at hlen
    subst hlen
    rw [h0] at hk
    cases hk

theorem ReportNotReturned_of_call_failed (f : Faults) (s : Store)
    (k : Nat) (e : String) (hk : f.call k = some e)
    (hlen : k < (ReportNotReturned f s).issued.length) :
    (ReportNotReturned f s).resp = respondJSON 500 (.apiError e) ∧
      (ReportNotReturned f s).store = s := by
  unfold ReportNotReturned at hlen ⊢
  cases h0 : f.call 0 with
  | some e0 =>
    simp only [h0, List.length_singleton, Nat.lt_one_iff] at hlen ⊢
    subst hlen
    rw [h0] at hk
    cases hk
    constructor <;> first | rfl | trivial
  | none =>
    simp only [h0, List.length_singleton, Nat.lt_one_iff] at hlen
    subst hlen
    rw [h0] at hk
    cases hk

theorem ReportTopRented_of_call_failed (f : Faults) (s : Store) (nStr : String)
    (k : Nat) (e : String) (hk : f.call k = some e)
    (hlen : k < (ReportTopRented f s nStr).issued.length) :
    (ReportTopRented f s nStr).resp = respondJSON 500 (.apiError e) ∧
      (ReportTopRented f s nStr).store = s := by
  unfold ReportTopRented at hlen ⊢
  simp only at hlen ⊢
  cases h0 : f.call 0 with
  | some e0 =>
    simp only [h0, List.length_singleton, Nat.lt_one_iff] at hlen ⊢
    subst hlen
    rw [h0] at hk
    cases hk
    constructor <;> first | rfl | trivial
  | none =>
    simp only [h0] at hlen
    have hk0 : k = 0 := by
      split at hlen <;> simpa using hlen
    subst hk0
    rw [h0] at hk
    cases hk

theorem ReportRevenueByStaff_of_call_failed (f : Faults) (s : Store)
    (k : Nat) (e : String) (hk : f.call k = some e)
    (hlen : k < (ReportRevenueByStaff f s).issued.length) :
    (ReportRevenueByStaff f s).resp = respondJSON 500 (.apiError e) ∧
      (ReportRevenueByStaff f s).store = s := by
  unfold ReportRevenueByStaff at hlen ⊢
  cases h0 : f.call 0 with
  | some e0 =>
    simp only [h0, List.length_singleton, Nat.lt_one_iff] at hlen ⊢
    subst hlen
    rw [h0] at hk
    cases hk
    constructor <;> first | rfl | trivial
  | none =>
    simp only [h0, List.length_singleton, Nat.lt_one_iff] at hlen
    subst hlen
    rw [h0] at hk
    cases hk

theorem Login_issued_length_le (f : Faults) (s : Store) (body : Except String loginRequest) :
    (Login f s body).issued.length ≤ 1 := by
  unfold Login
  cases body with
  | error m => simp
  | ok req =>
    simp only
    split_ifs
    · cases scanRow (f.call 0) (s.selectStaffByEmail req.Email) with
      | error _ => simp
      | ok x => simp
    · cases scanRow (f.call 0) (s.selectCustomerByEmail req.Email) with
      | error _ => simp
      | ok x => simp
    · simp

theorem Login_of_call_failed (f : Faults) (s : Store) (body : Except String loginRequest)
    (k : Nat) (e : String) (hk : f.call k = some e)
    (hlen : k < (Login f s body).issued.length) :
    ((Login f s body).resp = respondJSON 401 (.apiError "staff not found") ∨
      (Login f s body).resp = respondJSON 401 (.apiError "customer not found")) ∧
    (Login f s body).store = s := by
  have hk0 : k = 0 := by
    have := Login_issued_length_le f s body
    omega
  subst hk0
  cases body with
  | error m => simp [Login] at hlen
  | ok req =>
    unfold Login at hlen ⊢
    simp only at hlen ⊢
    by_cases hs : req.Role = "staff"
    · simp [hs, hk, scanRow]
    · by_cases hc : req.Role = "customer"
      · simp [hs, hc, hk, scanRow]
      · simp [hs, hc] at hlen

/-! ## The claims -/

theorem sampleStore_atMostOneOpen : AtMostOneOpen sampleStore := by
  intro i
  simp only [Store.countOpenForInventory, sampleStore, List.filter_cons, List.filter_nil,
    Rental.isOpen]
  by_cases h : (7 : Int) = i <;> simp [h]

/-- C1: the invariant "for every inventory identifier at most one rental has a
null return timestamp" is preserved by Rent, by Return and by Cancel, for every
argument and whether the call succeeds or fails; hence it holds in every state
reachable from a store without rentals. -/
theorem C1_at_most_one_open_invariant (s : Store) :
    (AtMostOneOpen s →
      (∀ f now body, AtMostOneOpen (Rent f now s body).store) ∧
      (∀ f now idStr, AtMostOneOpen (Return f now s idStr).store) ∧
      (∀ f idStr, AtMostOneOpen (Cancel f s idStr).store)) ∧
    (Reachable s → AtMostOneOpen s) :=
  ⟨fun h => ⟨fun f now body => Rent_store_atMostOneOpen f now s body h,
      fun f now idStr => Return_store_atMostOneOpen f now s idStr h,
      fun f idStr => Cancel_store_atMostOneOpen f s idStr h⟩,
    fun h => h.atMostOneOpen⟩

theorem C1_at_most_one_open_invariant_witness :
    AtMostOneOpen sampleStore ∧
    AtMostOneOpen (Rent noFaults 120 sampleStore (.ok ⟨3, 9, 1⟩)).store ∧
    AtMostOneOpen (Return noFaults 120 sampleStore "1").store ∧
    AtMostOneOpen (Cancel noFaults sampleStore "1").store ∧
    Reachable (Rent noFaults 120 freeItemStore (.ok ⟨3, 9, 1⟩)).store ∧
    AtMostOneOpen (Rent noFaults 120 freeItemStore (.ok ⟨3, 9, 1⟩)).store :=
  ⟨sampleStore_atMostOneOpen,
    ((C1_at_most_one_open_invariant sampleStore).1 sampleStore_atMostOneOpen).1 _ _ _,
    ((C1_at_most_one_open_invariant sampleStore).1 sampleStore_atMostOneOpen).2.1 _ _ _,
    ((C1_at_most_one_open_invariant sampleStore).1 sampleStore_atMostOneOpen).2.2 _ _,
    Reachable.rent _ _ _ _ (Reachable.init freeItemStore rfl),
    (C1_at_most_one_open_invariant _).2
      (Reachable.rent _ _ _ _ (Reachable.init freeItemStore rfl))⟩

/-- C2: with no store-access failure, Rent answers 409 "inventory already
rented" exactly when the store holds an open rental for the inventory
identifier, and then leaves the store as it was; otherwise it appends exactly
one rental carrying the given inventory, customer and staff identifiers with a
null return timestamp, keeps every existing row, and answers 201 with the
identifier generated for the new row. -/
theorem C2_rent_conflict_or_insert (f : Faults) (now : Int) (s : Store) (req : rentRequest)
    (h0 : f.call 0 = Option.none) (h1 : f.call 1 = Option.none) :
    ((Rent f now s (.ok req)).resp = respondJSON 409 (.apiError "inventory already rented") ↔
      ∃ r ∈ s.rental, r.inventory_id = req.InventoryID ∧ r.return_date = Option.none) ∧
    ((Rent f now s (.ok req)).resp.code = 409 ↔
      ∃ r ∈ s.rental, r.inventory_id = req.InventoryID ∧ r.return_date = Option.none) ∧
    ((∃ r ∈ s.rental, r.inventory_id = req.InventoryID ∧ r.return_date = Option.none) →
      (Rent f now s (.ok req)).store = s) ∧
    ((¬ ∃ r ∈ s.rental, r.inventory_id = req.InventoryID ∧ r.return_date = Option.none) →
      ∃ new : Rental,
        new.inventory_id = req.InventoryID ∧ new.customer_id = req.CustomerID ∧
        new.staff_id = req.StaffID ∧ new.return_date = Option.none ∧
        new.rental_date = now ∧
        (Rent f now s (.ok req)).store.rental = s.rental ++ [new] ∧
        (Rent f now s (.ok req)).store.inventory = s.inventory ∧
        (Rent f now s (.ok req)).store.film = s.film ∧
        (Rent f now s (.ok req)).store.customer = s.customer ∧
        (Rent f now s (.ok req)).store.staff = s.staff ∧
        (Rent f now s (.ok req)).store.payment = s.payment ∧
        (Rent f now s (.ok req)).resp = respondJSON 201 (.rentResponse new.rental_id)) := by
  rw [← countOpenForInventory_pos_iff]
  by_cases hc : 0 < s.countOpenForInventory req.InventoryID
  · have hr : Rent f now s (.ok req) =
        ⟨respondJSON 409 (.apiError "inventory already rented"), s,
          [.countOpenForInventory req.InventoryID]⟩ := by
      simp only [Rent, h0, gt_iff_lt, hc, if_true]
    rw [hr]
    exact ⟨⟨fun _ => hc, fun _ => rfl⟩, ⟨fun _ => hc, fun _ => rfl⟩, fun _ => rfl,
      fun h => absurd hc h⟩
  · have hr : Rent f now s (.ok req) =
        ⟨respondJSON 201 (.rentResponse
            (s.insertRental now req.InventoryID req.CustomerID req.StaffID).1),
          (s.insertRental now req.InventoryID req.CustomerID req.StaffID).2,
          [.countOpenForInventory req.InventoryID,
           .insertRental req.InventoryID req.CustomerID req.StaffID]⟩ := by
      simp only [Rent, h0, h1, gt_iff_lt, hc, if_false]
    rw [hr]
    refine ⟨⟨fun h => ?_, fun h => absurd h hc⟩, ⟨fun h => ?_, fun h => absurd h hc⟩,
      fun h => absurd h hc, fun _ => ?_⟩
    · simp [respondJSON] at h
    · simp [respondJSON] at h
    · exact ⟨⟨s.rental_id_seq, now, req.InventoryID, req.CustomerID, req.StaffID, Option.none⟩,
        rfl, rfl, rfl, rfl, rfl, rfl, rfl, rfl, rfl, rfl, rfl, rfl⟩

theorem C2_rent_conflict_or_insert_witness :
    (Rent noFaults 120 sampleStore (.ok ⟨3, 7, 1⟩)).resp.code = 409 ∧
    (Rent noFaults 120 sampleStore (.ok ⟨3, 9, 1⟩)).resp = respondJSON 201 (.rentResponse 3) ∧
    (Rent noFaults 120 sampleStore (.ok ⟨3, 9, 1⟩)).store.rental =
      sampleStore.rental ++ [⟨3, 120, 9, 3, 1, Option.none⟩] :=
  ⟨(C2_rent_conflict_or_insert noFaults 120 sampleStore ⟨3, 7, 1⟩ rfl rfl).2.1.mpr
      ⟨⟨1, 100, 7, 3, 1, Option.none⟩, by decide, rfl, rfl⟩,
    by decide, by decide⟩

/-- C3: Returned is terminal. In a store with unique rental identifiers, for a
rental whose return timestamp is set, Return and Cancel on its identifier leave
the store exactly as it was (whatever the store-access outcome) and, when the
store answers, fail with 404 and 409. For an open rental, a Return followed by
a second Return on the same identifier succeeds the first time, fails with 404
the second time, and the first return timestamp stays in place. -/
theorem C3_returned_is_terminal (now now2 : Int) (s : Store) (r : Rental) (idStr : String)
    (hu : UniqueRentalIDs s) (hr : r ∈ s.rental) (hid : Atoi idStr = r.rental_id) :
    (r.return_date ≠ Option.none →
      (∀ f, (Return f now s idStr).store = s ∧ (Cancel f s idStr).store = s) ∧
      (∀ f, f.call 0 = Option.none →
        (Return f now s idStr).resp =
          respondJSON 404 (.apiError "rental not found or already returned") ∧
        (Cancel f s idStr).resp =
          respondJSON 409 (.apiError "cannot cancel: rental already returned or not found"))) ∧
    (r.return_date = Option.none → ∀ f f2, f.call 0 = Option.none → f2.call 0 = Option.none →
      (Return f now s idStr).resp = respondJSON 200 (.returned r.rental_id) ∧
      { r with return_date := some now } ∈ (Return f now s idStr).store.rental ∧
      (Return f2 now2 (Return f now s idStr).store idStr).resp =
        respondJSON 404 (.apiError "rental not found or already returned") ∧
      (Return f2 now2 (Return f now s idStr).store idStr).store = (Return f now s idStr).store ∧
      { r with return_date := some now } ∈
        (Return f2 now2 (Return f now s idStr).store idStr).store.rental) := by
  refine ⟨fun hret => ⟨fun f => ⟨(Return_of_returned f now s r idStr hu hr hret hid).1,
      (Cancel_of_returned f s r idStr hu hr hret hid).1⟩,
    fun f h0 => ⟨(Return_of_returned f now s r idStr hu hr hret hid).2 h0,
      (Cancel_of_returned f s r idStr hu hr hret hid).2 h0⟩⟩, ?_⟩
  intro hopen f f2 h0 h2
  obtain ⟨h200, hst, hmem⟩ := Return_of_open f now s r idStr hr hopen hid h0
  have hu1 : UniqueRentalIDs (Return f now s idStr).store := by
    rw [hst]
    unfold UniqueRentalIDs
    rw [updateReturnDate_rental_ids]
    exact hu
  have h2nd := Return_of_returned f2 now2 (Return f now s idStr).store
    { r with return_date := some now } idStr hu1 hmem (by simp) hid
  refine ⟨h200, hmem, h2nd.2 h2, h2nd.1, ?_⟩
  rw [h2nd.1]
  exact hmem

theorem C3_returned_is_terminal_witness :
    ((Return noFaults 120 sampleStore "2").store = sampleStore ∧
      (Cancel noFaults sampleStore "2").store = sampleStore) ∧
    ((Return noFaults 120 sampleStore "2").resp =
        respondJSON 404 (.apiError "rental not found or already returned") ∧
      (Cancel noFaults sampleStore "2").resp =
        respondJSON 409 (.apiError "cannot cancel: rental already returned or not found")) ∧
    ((Return noFaults 120 sampleStore "1").resp = respondJSON 200 (.returned 1) ∧
      (Return noFaults 130 (Return noFaults 120 sampleStore "1").store "1").resp =
        respondJSON 404 (.apiError "rental not found or already returned") ∧
      (⟨1, 100, 7, 3, 1, some 120⟩ : Rental) ∈
        (Return noFaults 130 (Return noFaults 120 sampleStore "1").store "1").store.rental) :=
  have h := (C3_returned_is_terminal 120 130 sampleStore ⟨2, 90, 8, 3, 1, some 95⟩ "2"
    (by decide) (by decide) (by decide)).1 (by decide)
  have h2 := (C3_returned_is_terminal 120 130 sampleStore ⟨1, 100, 7, 3, 1, Option.none⟩ "1"
    (by decide) (by decide) (by decide)).2 rfl noFaults noFaults rfl rfl
  ⟨h.1 noFaults, h.2 noFaults rfl, h2.1, h2.2.2.1, h2.2.2.2.2⟩

/-- C5: a decoded login request whose role is neither "staff" nor "customer" is
answered 400 "role must be 'staff' or 'customer'", whatever the email, without
any statement being sent to the store and with the store untouched. -/
theorem C5_login_rejects_other_roles (f : Faults) (s : Store) (req : loginRequest)
    (hs : req.Role ≠ "staff") (hc : req.Role ≠ "customer") :
    (Login f s (.ok req)).resp =
      respondJSON 400 (.apiError "role must be 'staff' or 'customer'") ∧
    (Login f s (.ok req)).issued = [] ∧
    (Login f s (.ok req)).store = s := by
  simp [Login, hs, hc]

theorem C5_login_rejects_other_roles_witness :
    ((Login noFaults sampleStore (.ok ⟨"mike@example.org", "manager"⟩)).resp =
        respondJSON 400 (.apiError "role must be 'staff' or 'customer'") ∧
      (Login noFaults sampleStore (.ok ⟨"mike@example.org", "manager"⟩)).issued = [] ∧
      (Login noFaults sampleStore (.ok ⟨"mike@example.org", "manager"⟩)).store = sampleStore) ∧
    (Login noFaults sampleStore (.ok ⟨"mike@example.org", ""⟩)).issued = [] :=
  ⟨C5_login_rejects_other_roles noFaults sampleStore ⟨"mike@example.org", "manager"⟩
      (by decide) (by decide),
    (C5_login_rejects_other_roles noFaults sampleStore ⟨"mike@example.org", ""⟩
      (by decide) (by decide)).2.1⟩

/-- C7: for every store and every `film_id` given, when the query runs,
AvailableInventory answers 200 with at most 10 inventory identifiers; each is
the identifier of an inventory row of that film and has no open rental in the
store, so a Rent on it in the same state is not answered 409; and no inventory
item that has an open rental is in the answer. -/
theorem C7_available_inventory (f : Faults) (s : Store) (filmIDStr : String)
    (hne : filmIDStr ≠ "") (h0 : f.call 0 = Option.none) :
    ∃ ids : List Int,
      (AvailableInventory f s filmIDStr).resp = respondJSON 200 (.inventory_ids ids) ∧
      ids.length ≤ 10 ∧
      (∀ id ∈ ids,
        (∃ i ∈ s.inventory, i.inventory_id = id ∧ i.film_id = Atoi filmIDStr) ∧
        s.countOpenForInventory id = 0 ∧
        ∀ f2 now customerID staffID,
          (Rent f2 now s (.ok ⟨customerID, id, staffID⟩)).resp.code ≠ 409) ∧
      (∀ i ∈ s.inventory, 0 < s.countOpenForInventory i.inventory_id →
        i.inventory_id ∉ ids) := by
  refine ⟨readRows f (s.selectAvailable (Atoi filmIDStr)), ?_, ?_, ?_, ?_⟩
  · simp [AvailableInventory, hne, h0]
  · exact le_trans (readRows_sublist f _).length_le (length_selectAvailable_le s _)
  · intro id hid
    have h := mem_selectAvailable s _ id ((readRows_sublist f _).subset hid)
    exact ⟨h.1, h.2, fun f2 now customerID staffID =>
      Rent_code_ne_409 f2 now s ⟨customerID, id, staffID⟩ h.2⟩
  · intro i _ hpos hid
    have h := mem_selectAvailable s _ _ ((readRows_sublist f _).subset hid)
    omega

theorem C7_available_inventory_witness :
    ∃ ids : List Int,
      (AvailableInventory noFaults sampleStore "20").resp =
        respondJSON 200 (.inventory_ids ids) ∧
      ids.length ≤ 10 ∧
      (∀ id ∈ ids,
        (∃ i ∈ sampleStore.inventory, i.inventory_id = id ∧ i.film_id = Atoi "20") ∧
        sampleStore.countOpenForInventory id = 0 ∧
        ∀ f2 now customerID staffID,
          (Rent f2 now sampleStore (.ok ⟨customerID, id, staffID⟩)).resp.code ≠ 409) ∧
      (∀ i ∈ sampleStore.inventory, 0 < sampleStore.countOpenForInventory i.inventory_id →
        i.inventory_id ∉ ids) :=
  C7_available_inventory noFaults sampleStore "20" (by decide) rfl

theorem AvailableInventory_sample :
    (AvailableInventory noFaults sampleStore "20").resp =
      respondJSON 200 (.inventory_ids [8]) := by decide

/-- C8: in a store whose inventory and film identifiers are keys, for every
limit n ≥ 0 given in the `limit` parameter, TopRented answers with exactly
min(n, number of distinct film titles with at least one rental) entries on
distinct titles; each entry's total is the number of rentals, open or
returned, of films with that title; totals are non-increasing; every title left
out has a total no greater than every entry's; and an absent `limit` parameter
is read as 10. -/
theorem C8_top_rented (f : Faults) (s : Store) (nStr : String)
    (hi : UniqueInventoryIDs s) (hf : UniqueFilmIDs s)
    (h0 : f.call 0 = Option.none) (hnext : f.next = Option.none)
    (hne : nStr ≠ "") (hn : 0 ≤ Atoi nStr) :
    (∃ rows : List TopRentedRow,
      (ReportTopRented f s nStr).resp = respondJSON 200 (.topRented rows) ∧
      rows.length = min (Atoi nStr).toNat s.rentedTitles.length ∧
      (rows.map (fun x => x.Title)).Nodup ∧
      (∀ row ∈ rows, row.Title ∈ s.rentedTitles ∧
        row.Total = (s.rentalsOfTitle row.Title : Int)) ∧
      rows.Pairwise (fun a b => b.Total ≤ a.Total) ∧
      (∀ t, t ∉ rows.map (fun x => x.Title) →
        ∀ row ∈ rows, (s.rentalsOfTitle t : Int) ≤ row.Total)) ∧
    ReportTopRented f s "" = ReportTopRented f s "10" ∧ Atoi "10" = 10 := by
  refine ⟨⟨s.topRentedSorted.take (Atoi nStr).toNat, ?_, ?_, ?_, ?_, ?_, ?_⟩, ?_, by decide⟩
  · have hlt : ¬ Atoi nStr < 0 := not_lt.mpr hn
    simp only [ReportTopRented, hne, if_false, h0, Store.selectTopRented, hlt,
      readRows_of_next_none f _ hnext]
    rfl
  · rw [List.length_take, length_topRentedSorted]
  · exact (topRentedSorted_titles_nodup s).sublist ((List.take_sublist _ _).map _)
  · intro row hrow
    exact (mem_topRentedSorted s row hi hf).1 (List.mem_of_mem_take hrow)
  · exact (orderByDesc_pairwise _ _).sublist (List.take_sublist _ _)
  · intro t ht row hrow
    have hrow2 := (mem_topRentedSorted s row hi hf).1 (List.mem_of_mem_take hrow)
    by_cases hz : s.rentalsOfTitle t = 0
    · rw [hz, hrow2.2]
      exact Int.natCast_nonneg _
    · have hmem : (⟨t, (s.rentalsOfTitle t : Int)⟩ : TopRentedRow) ∈ s.topRentedSorted := by
        rw [mem_topRentedSorted s _ hi hf]
        refine ⟨?_, rfl⟩
        unfold Store.rentedTitles
        rw [List.mem_filter, List.mem_dedup]
        have hpos : 0 < s.rentalsOfTitle t := Nat.pos_of_ne_zero hz
        refine ⟨?_, decide_eq_true hpos⟩
        unfold Store.rentalsOfTitle at hpos
        rw [List.length_pos_iff_exists_mem] at hpos
        obtain ⟨r, hr⟩ := hpos
        rw [List.mem_filter] at hr
        have h := hr.2
        unfold Store.isRentalOfTitle at h
        simp only [List.any_eq_true, Bool.and_eq_true, decide_eq_true_eq] at h
        obtain ⟨_, _, _, fl, hfl, _, ht2⟩ := h
        exact List.mem_map.2 ⟨fl, hfl, ht2⟩
      rcases mem_take_or_mem_drop _ (Atoi nStr).toNat _ hmem with h | h
      · exact absurd (List.mem_map.2 ⟨_, h, rfl⟩) ht
      · exact take_ge_drop_of_pairwise _ _ _
          (orderByDesc_pairwise (fun x : TopRentedRow => x.Total) _) row hrow _ h
  · simp [ReportTopRented]

theorem C8_top_rented_witness :
    (∃ rows : List TopRentedRow,
      (ReportTopRented noFaults abcStore "2").resp = respondJSON 200 (.topRented rows) ∧
      rows.length = min (Atoi "2").toNat abcStore.rentedTitles.length ∧
      (rows.map (fun x => x.Title)).Nodup ∧
      (∀ row ∈ rows, row.Title ∈ abcStore.rentedTitles ∧
        row.Total = (abcStore.rentalsOfTitle row.Title : Int)) ∧
      rows.Pairwise (fun a b => b.Total ≤ a.Total) ∧
      (∀ t, t ∉ rows.map (fun x => x.Title) →
        ∀ row ∈ rows, (abcStore.rentalsOfTitle t : Int) ≤ row.Total)) ∧
    (∃ second : TopRentedRow,
      (ReportTopRented noFaults abcStore "2").resp =
        respondJSON 200 (.topRented [⟨"A", 5⟩, second])) ∧
    abcStore.rentalsOfTitle "A" = 5 ∧ abcStore.rentalsOfTitle "B" = 3 ∧
    abcStore.rentalsOfTitle "C" = 3 :=
  ⟨(C8_top_rented noFaults abcStore "2" (by decide) (by decide) rfl rfl (by decide)
      (by decide)).1,
    ⟨⟨"B", 3⟩, by decide⟩, by decide, by decide, by decide⟩

/-- C9: in a store whose customer, inventory and film identifiers are keys and
whose references resolve, NotReturned answers with exactly one entry per open
rental and none for a returned one, each carrying the rental's identifier,
timestamp and inventory identifier with the customer's name and the film's
title; entries are in ascending order of rental timestamp, so of two open
rentals with timestamps T1 < T2 the T1 rental comes first. -/
theorem C9_not_returned (f : Faults) (s : Store)
    (hc : UniqueCustomerIDs s) (hi : UniqueInventoryIDs s) (hf : UniqueFilmIDs s)
    (href : ReferencesResolve s)
    (h0 : f.call 0 = Option.none) (hnext : f.next = Option.none) :
    ∃ rows : List NotReturnedRow,
      (ReportNotReturned f s).resp = respondJSON 200 (.notReturned rows) ∧
      (rows.map (fun x => (x.RentalID, x.RentalDate, x.InventoryID))).Perm
        ((s.rental.filter (fun r => r.isOpen)).map
          (fun r => (r.rental_id, r.rental_date, r.inventory_id))) ∧
      (∀ x ∈ rows, ∃ r ∈ s.rental, ∃ c ∈ s.customer, ∃ i ∈ s.inventory, ∃ fl ∈ s.film,
        r.return_date = Option.none ∧ c.customer_id = r.customer_id ∧
        i.inventory_id = r.inventory_id ∧ fl.film_id = i.film_id ∧
        x = ⟨r.rental_id, c.first_name ++ " " ++ c.last_name, fl.title, r.rental_date,
          r.inventory_id⟩) ∧
      rows.Pairwise (fun a b => a.RentalDate ≤ b.RentalDate) ∧
      (∀ r1 ∈ s.rental, ∀ r2 ∈ s.rental,
        r1.return_date = Option.none → r2.return_date = Option.none →
        r1.rental_date < r2.rental_date →
        ∃ x1 x2, [x1, x2].Sublist rows ∧
          x1.RentalID = r1.rental_id ∧ x1.RentalDate = r1.rental_date ∧
          x2.RentalID = r2.rental_id ∧ x2.RentalDate = r2.rental_date) := by
  have hperm : ((s.selectNotReturned).map
      (fun x => (x.RentalID, x.RentalDate, x.InventoryID))).Perm
      ((s.rental.filter (fun r => r.isOpen)).map
        (fun r => (r.rental_id, r.rental_date, r.inventory_id))) := by
    rw [selectNotReturned_eq, List.map_map]
    have hcongr : s.notReturnedSorted.map
        ((fun x : NotReturnedRow => (x.RentalID, x.RentalDate, x.InventoryID)) ∘
          notReturnedRow) =
        (s.notReturnedSorted.map Prod.fst).map
          (fun r => (r.rental_id, r.rental_date, r.inventory_id)) := by
      rw [List.map_map]
      apply List.map_congr_left
      intro x hx
      have hj := mem_rentalJoinCustomerFilm s x (mem_notReturnedSorted s x hx).1
      simp only [Function.comp, notReturnedRow, hj.2.2.2.2.2.1]
    rw [hcongr]
    exact (notReturnedSorted_fst_perm s hc hi hf href).map _
  have hsorted : s.selectNotReturned.Pairwise (fun a b => a.RentalDate ≤ b.RentalDate) := by
    rw [selectNotReturned_eq, List.pairwise_map]
    exact orderByAsc_pairwise _ _
  have hfind : ∀ r ∈ s.rental, r.return_date = Option.none →
      ∃ x ∈ s.selectNotReturned, x.RentalID = r.rental_id ∧ x.RentalDate = r.rental_date := by
    intro r hr hopen
    have hmem : (r.rental_id, r.rental_date, r.inventory_id) ∈
        (s.rental.filter (fun r => r.isOpen)).map
          (fun r => (r.rental_id, r.rental_date, r.inventory_id)) :=
      List.mem_map.2 ⟨r, List.mem_filter.2 ⟨hr, by simp [Rental.isOpen, hopen]⟩, rfl⟩
    rw [← hperm.mem_iff, List.mem_map] at hmem
    obtain ⟨x, hx, hxe⟩ := hmem
    simp only [Prod.mk.injEq] at hxe
    exact ⟨x, hx, hxe.1, hxe.2.1⟩
  refine ⟨s.selectNotReturned, ?_, hperm, ?_, hsorted, ?_⟩
  · simp [ReportNotReturned, h0, readRows_of_next_none f _ hnext]
  · intro x hx
    rw [selectNotReturned_eq, List.mem_map] at hx
    obtain ⟨y, hy, hyx⟩ := hx
    obtain ⟨hj, hopen⟩ := mem_notReturnedSorted s y hy
    have hm := mem_rentalJoinCustomerFilm s y hj
    refine ⟨y.1, hm.1, y.2.1, hm.2.1, y.2.2.1, hm.2.2.1, y.2.2.2, hm.2.2.2.1, hopen,
      hm.2.2.2.2.1, hm.2.2.2.2.2.1, hm.2.2.2.2.2.2, ?_⟩
    rw [← hyx, ← hm.2.2.2.2.2.1]
    rfl
  · intro r1 hr1 r2 hr2 ho1 ho2 hlt
    obtain ⟨x1, hx1, h1a, h1b⟩ := hfind r1 hr1 ho1
    obtain ⟨x2, hx2, h2a, h2b⟩ := hfind r2 hr2 ho2
    refine ⟨x1, x2, ?_, h1a, h1b, h2a, h2b⟩
    apply sublist_pair_of_pairwise (fun x : NotReturnedRow => x.RentalDate) _ x1 x2 hsorted
      hx1 hx2
    simp only [h1b, h2b]
    exact hlt

theorem C9_not_returned_witness :
    (∃ rows : List NotReturnedRow,
      (ReportNotReturned noFaults twoOpenStore).resp = respondJSON 200 (.notReturned rows) ∧
      (rows.map (fun x => (x.RentalID, x.RentalDate, x.InventoryID))).Perm
        ((twoOpenStore.rental.filter (fun r => r.isOpen)).map
          (fun r => (r.rental_id, r.rental_date, r.inventory_id))) ∧
      rows.Pairwise (fun a b => a.RentalDate ≤ b.RentalDate)) ∧
    (ReportNotReturned noFaults twoOpenStore).resp =
      respondJSON 200 (.notReturned
        [⟨3, "Bo Ek", "Brazil", 100, 9⟩, ⟨1, "Ana Diaz", "Alien", 200, 7⟩]) :=
  ⟨(C9_not_returned noFaults twoOpenStore (by decide) (by decide) (by decide) (by decide)
      rfl rfl).imp (fun _ h => ⟨h.1, h.2.1, h.2.2.2.1⟩),
    by decide⟩

theorem bigPaymentStore_paymentsTotal :
    bigPaymentStore.paymentsTotal 1 = 9007199254740993 := by
  simp [Store.paymentsTotal, bigPaymentStore]

theorem bigPaymentStore_select :
    bigPaymentStore.selectRevenueByStaff = [(1, "Mike Hill", 9007199254740993)] := by
  have hu : UniqueStaffIDs bigPaymentStore := by decide
  have hperm := selectRevenueByStaff_ids_perm bigPaymentStore hu
  have hlen : bigPaymentStore.selectRevenueByStaff.length = 1 := by
    have := hperm.length_eq
    simpa [bigPaymentStore] using this
  cases hs : bigPaymentStore.selectRevenueByStaff with
  | nil => rw [hs] at hlen; cases hlen
  | cons x xs =>
    rw [hs] at hlen
    have hxs : xs = [] := by
      cases xs with
      | nil => rfl
      | cons y ys => simp at hlen
    subst hxs
    have hx : x ∈ bigPaymentStore.selectRevenueByStaff := by rw [hs]; exact List.mem_singleton.2 rfl
    obtain ⟨st, hst, hxe⟩ := mem_selectRevenueByStaff bigPaymentStore hu x hx
    have hst1 : st = ⟨1, "Mike", "Hill", Option.none⟩ := by
      simpa [bigPaymentStore] using hst
    subst hst1
    rw [hxe, bigPaymentStore_paymentsTotal]
    rfl

theorem sampleStore_select :
    sampleStore.selectRevenueByStaff = [(1, "Mike Hill", 8), (2, "Jon Stone", 0)] := by
  have h1 : (sampleStore.staffLeftJoinPayment.map staffKey).dedup =
      [(1, "Mike Hill"), (2, "Jon Stone")] := by decide
  have h2 : sampleStore.staffLeftJoinPayment =
      [(⟨1, "Mike", "Hill", some "mike@example.org"⟩, some ⟨1, 5⟩),
       (⟨1, "Mike", "Hill", some "mike@example.org"⟩, some ⟨1, 3⟩),
       (⟨2, "Jon", "Stone", Option.none⟩, Option.none)] := by decide
  unfold Store.selectRevenueByStaff
  rw [h1, h2]
  simp [staffKey, sqlSum, orderByDesc]
  norm_num

theorem ReportRevenueByStaff_sample :
    (ReportRevenueByStaff noFaults sampleStore).resp =
      respondJSON 200 (.revenueByStaff [⟨1, "Mike Hill", 8⟩, ⟨2, "Jon Stone", 0⟩]) := by
  have h8 : scanFloat64 8 = 8 := by
    have := scanFloat64_natCast 8 (by norm_num)
    simpa using this
  simp only [ReportRevenueByStaff, noFaults, readRows, sampleStore_select, List.map_cons,
    List.map_nil, h8, scanFloat64_zero]

/-- The error path the handlers do have: when a `Query`, `QueryRow` or `Exec`
call made by Rent, Return, Cancel, AvailableInventory or one of the four reports
returns an error, the handler answers 500 with that error's message. -/
theorem query_failure_answers_500 (f : Faults) (now : Int) (s : Store) (k : Nat) (e : String)
    (hk : f.call k = some e) :
    (∀ body, k < (Rent f now s body).issued.length →
      (Rent f now s body).resp = respondJSON 500 (.apiError e)) ∧
    (∀ idStr, k < (Return f now s idStr).issued.length →
      (Return f now s idStr).resp = respondJSON 500 (.apiError e)) ∧
    (∀ idStr, k < (Cancel f s idStr).issued.length →
      (Cancel f s idStr).resp = respondJSON 500 (.apiError e)) ∧
    (∀ filmIDStr, k < (AvailableInventory f s filmIDStr).issued.length →
      (AvailableInventory f s filmIDStr).resp = respondJSON 500 (.apiError e)) ∧
    (∀ idStr, k < (ReportCustomerRentals f s idStr).issued.length →
      (ReportCustomerRentals f s idStr).resp = respondJSON 500 (.apiError e)) ∧
    (k < (ReportNotReturned f s).issued.length →
      (ReportNotReturned f s).resp = respondJSON 500 (.apiError e)) ∧
    (∀ nStr, k < (ReportTopRented f s nStr).issued.length →
      (ReportTopRented f s nStr).resp = respondJSON 500 (.apiError e)) ∧
    (k < (ReportRevenueByStaff f s).issued.length →
      (ReportRevenueByStaff f s).resp = respondJSON 500 (.apiError e)) :=
  ⟨fun body h => (Rent_of_call_failed f now s body k e hk h).1,
    fun idStr h => (Return_of_call_failed f now s idStr k e hk h).1,
    fun idStr h => (Cancel_of_call_failed f s idStr k e hk h).1,
    fun filmIDStr h => (AvailableInventory_of_call_failed f s filmIDStr k e hk h).1,
    fun idStr h => (ReportCustomerRentals_of_call_failed f s idStr k e hk h).1,
    fun h => (ReportNotReturned_of_call_failed f s k e hk h).1,
    fun nStr h => (ReportTopRented_of_call_failed f s nStr k e hk h).1,
    fun h => (ReportRevenueByStaff_of_call_failed f s k e hk h).1⟩

theorem query_failure_answers_500_sample :
    (Rent ⟨fun _ => some "connection refused", Option.none⟩ 120 sampleStore
        (.ok ⟨3, 9, 1⟩)).resp = respondJSON 500 (.apiError "connection refused") ∧
    (ReportNotReturned ⟨fun _ => some "connection refused", Option.none⟩ twoOpenStore).resp =
      respondJSON 500 (.apiError "connection refused") :=
  ⟨(query_failure_answers_500 ⟨fun _ => some "connection refused", Option.none⟩ 120
      sampleStore 0 "connection refused" rfl).1 (.ok ⟨3, 9, 1⟩) (by decide),
    (query_failure_answers_500 ⟨fun _ => some "connection refused", Option.none⟩ 120
      twoOpenStore 0 "connection refused" rfl).2.2.2.2.2.1 (by decide)⟩

/-- C4 on the code: two store failures are not reported as 500 with the store's
message. When reading the result set of NotReturned stops on a store error
after one row of two, the answer is 200 with that one row, where a failure of
the `Query` call of the same handler is answered 500. When the lookup of Login
fails because the store is unreachable, the answer is 401 "staff not found",
the one given when no staff member has the email, where the same failure in
Rent is answered 500. -/
theorem C4_store_failure_not_reported_as_500 :
    ((ReportNotReturned ⟨fun _ => Option.none, some 1⟩ twoOpenStore).resp =
        respondJSON 200 (.notReturned [⟨3, "Bo Ek", "Brazil", 100, 9⟩]) ∧
      (ReportNotReturned noFaults twoOpenStore).resp =
        respondJSON 200 (.notReturned
          [⟨3, "Bo Ek", "Brazil", 100, 9⟩, ⟨1, "Ana Diaz", "Alien", 200, 7⟩]) ∧
      (ReportNotReturned ⟨fun _ => some "connection refused", Option.none⟩ twoOpenStore).resp =
        respondJSON 500 (.apiError "connection refused")) ∧
    ((Login ⟨fun _ => some "connection refused", Option.none⟩ sampleStore
          (.ok ⟨"mike@example.org", "staff"⟩)).resp =
        respondJSON 401 (.apiError "staff not found") ∧
      (Login noFaults sampleStore (.ok ⟨"nobody@example.org", "staff"⟩)).resp =
        respondJSON 401 (.apiError "staff not found") ∧
      (Login noFaults sampleStore (.ok ⟨"mike@example.org", "staff"⟩)).resp =
        respondJSON 200 (.loginResponse "staff-1" "staff" 1 "Mike Hill") ∧
      (Rent ⟨fun _ => some "connection refused", Option.none⟩ 120 sampleStore
          (.ok ⟨3, 9, 1⟩)).resp = respondJSON 500 (.apiError "connection refused")) := by
  decide

/-- The round trips of one request, taken in a row, are the handler `Rent`. -/
theorem rentStep_twice_eq_Rent (now : Int) (s : Store) (req : rentRequest) :
    rentStep now (rentStep now s (.start req)).2 (rentStep now s (.start req)).1 =
      (.done (Rent noFaults now s (.ok req)).resp, (Rent noFaults now s (.ok req)).store) := by
  by_cases hc : s.countOpenForInventory req.InventoryID > 0
  · simp [rentStep, Rent, noFaults, hc]
  · simp [rentStep, Rent, noFaults, hc]

/-- C6 on the code: two Rent requests for the same free inventory item, served
so that both count queries run before either `INSERT`, both answer 201, and the
store ends with two open rentals for the item; served one after the other, the
second is answered 409. -/
theorem C6_concurrent_rent_both_succeed :
    (runSchedule 120 [0, 1, 0, 1]
        (freeItemStore, [.start ⟨3, 9, 1⟩, .start ⟨4, 9, 1⟩])).2 =
      [.done (respondJSON 201 (.rentResponse 1)), .done (respondJSON 201 (.rentResponse 2))] ∧
    (runSchedule 120 [0, 1, 0, 1]
        (freeItemStore, [.start ⟨3, 9, 1⟩, .start ⟨4, 9, 1⟩])).1.countOpenForInventory 9 = 2 ∧
    freeItemStore.countOpenForInventory 9 = 0 ∧
    (runSchedule 120 [0, 0, 1, 1]
        (freeItemStore, [.start ⟨3, 9, 1⟩, .start ⟨4, 9, 1⟩])).2 =
      [.done (respondJSON 201 (.rentResponse 1)),
       .done (respondJSON 409 (.apiError "inventory already rented"))] := by
  decide

theorem Atoi_ten : Atoi "10" = 10 := by decide

theorem Atoi_negative : Atoi "-7" = -7 := by decide

theorem Atoi_syntax_error : Atoi "abc" = 0 ∧ Atoi "" = 0 ∧ Atoi "1x" = 0 := by decide

theorem Atoi_range_error : Atoi "99999999999999999999" = 9223372036854775807 := by decide

end DvdRental
